import Mathlib

/-!
Verification of the BrawlFast ranking engine (v3).

This file is a shallow embedding, in Lean 4, of the statistical core of the
BrawlFast brawler-ranking system:

* `lib/rankingEngine.js` (v3 module): `calculateBayesianConfidence`,
  `calculateTimeWeightedWinRate`, `getMapTypeWeights`, `getEffectiveWeights`,
  `calculateCompositionScore`, `calculateUseRateScore`,
  `calculateCounterMetaScore`, `computeCPS`, `computeCPSWithCI`, `assignTiers`;
* `lib/changepoint.js`: `detectChangepoint`, `computeStaleness`;
* `lib/statistics.js`: `mean`, `standardDeviation`, `binomialVariance`,
  `betaVariance`;
* `lib/mapFeatures.js`: `getMapFeatureWeightModifiers`;
* `config/ranking.config.js`: the concrete configuration tables.

JavaScript numbers are modelled as real numbers (`ℝ`); `Number(x.toFixed(k))`
is modelled as exact rounding to `k` decimal places with ties away from zero;
JavaScript falsy coercion `a || d` on numbers (where `undefined`, `null` and
`0` all select the default) is modelled by `jsOr` on `Option ℝ`.  Timestamps
are real-valued milliseconds and the ambient `Date.now()` is passed explicitly
as a `now : ℝ` parameter.  The free-text map-mode normalisation
(`normalizeMapType`, pure string plumbing) is elided: the engine functions take
the already-normalised `MapType` tag.

The terrain-feature data file `config/mapFeatures.json` is not part of the
sources; `getMapFeatureWeightModifiers` therefore takes the looked-up feature
record (`Option MapFeatures`, `none` for unknown/absent maps) as an argument,
and the documented schema ranges (openness and bushCoverage in [0,1],
laneCount in [1,4], from the comments in `lib/mapFeatures.js`) appear as the
`FeaturesValid` hypothesis where a theorem needs them.
-/

namespace BrawlFast

/-- One day in milliseconds, as used by the JS code for timestamp arithmetic. -/
def dayMs : ℝ := 86400000

/-- JavaScript `v || d` on an optional number: `undefined`/`null` and `0` are
falsy and select the default `d`; any other number is returned unchanged. -/
noncomputable def jsOr (v : Option ℝ) (d : ℝ) : ℝ :=
  match v with
  | none => d
  | some x => if x = 0 then d else x

/-- `Math.max(0, Math.min(1, x))`. -/
noncomputable def clamp01 (x : ℝ) : ℝ := max 0 (min 1 x)

/-- `Number(x.toFixed(3))`: rounding to the nearest multiple of `1/1000`,
ties toward the larger value, as specified for `Number.prototype.toFixed`. -/
noncomputable def toFixed3 (x : ℝ) : ℝ := (⌊x * 1000 + 1 / 2⌋ : ℤ) / 1000

/-- `Number(x.toFixed(6))`, used for the reported variance. -/
noncomputable def toFixed6 (x : ℝ) : ℝ := (⌊x * 1000000 + 1 / 2⌋ : ℤ) / 1000000

/-! ## Data model -/

/-- The four-component weight vector `{performance, synergy, popularity,
counter}`. -/
structure Weights where
  performance : ℝ
  synergy : ℝ
  popularity : ℝ
  counter : ℝ

/-- The `MapType` enumeration from `config/ranking.config.js`: the seven known
game modes plus the `unknown` fallback. -/
inductive MapType
  | gemGrab
  | brawlBall
  | bounty
  | heist
  | showdown
  | hotZone
  | knockout
  | unknown
  deriving DecidableEq

/-- The `SkillTier` enumeration from `config/ranking.config.js`. -/
inductive SkillTier
  | casual
  | competitive
  | pro
  deriving DecidableEq

/-- One timestamped game record `{isWin, timestamp}` (timestamp in ms). -/
structure Game where
  isWin : Bool
  timestamp : ℝ

/-- One matchup record `{opponent, winRate, sampleCount}`. -/
structure Matchup where
  opponent : String
  winRate : ℝ
  sampleCount : ℝ

/-- One team-composition record `{brawlers, winRate, adjustedWinRate, count}`.
Optional numeric fields are `Option ℝ`; an absent `brawlers` array behaves
like the empty list (the `includes` test fails either way). -/
structure Team where
  brawlers : List String
  winRate : Option ℝ
  adjustedWinRate : Option ℝ
  count : Option ℝ

/-- One brawler record as consumed by `computeCPS`. -/
structure Brawler where
  name : String
  winRate : Option ℝ
  adjustedWinRate : Option ℝ
  useRate : Option ℝ
  count : Option ℝ
  recentGames : List Game
  matchups : Option (List Matchup)
  historicalPickRate : Option ℝ
  historicalWinRate : Option ℝ

/-- Pre-calculated pool distribution statistics (the optional `stats` argument
of `computeCPS`). -/
structure Stats where
  meanWR : ℝ
  stdDevWR : ℝ
  meanUR : ℝ
  stdDevUR : ℝ

/-! ## Configuration (`config/ranking.config.js`) -/

/-- `config.mapWeights`: the per-mode base weight table. -/
def mapWeights : MapType → Weights
  | .gemGrab => ⟨0.4, 0.35, 0.15, 0.1⟩
  | .hotZone => ⟨0.4, 0.35, 0.15, 0.1⟩
  | .showdown => ⟨0.75, 0.05, 0.1, 0.1⟩
  | .brawlBall => ⟨0.5, 0.2, 0.15, 0.15⟩
  | .bounty => ⟨0.5, 0.2, 0.15, 0.15⟩
  | .knockout => ⟨0.5, 0.2, 0.15, 0.15⟩
  | .heist => ⟨0.6, 0.1, 0.15, 0.15⟩
  | .unknown => ⟨0.5, 0.2, 0.15, 0.15⟩

/-- `getMapTypeWeights`: table lookup with the `unknown` fallback (total here
because `MapType` is the already-normalised tag). -/
def getMapTypeWeights (mapType : MapType) : Weights := mapWeights mapType

/-- `config.skillTierModifiers`: additive weight adjustments per skill tier. -/
def skillTierModifiers : SkillTier → Weights
  | .casual => ⟨0.10, -0.10, 0.05, -0.05⟩
  | .competitive => ⟨0, 0, 0, 0⟩
  | .pro => ⟨-0.05, 0.10, -0.10, 0.05⟩

/-- A per-map terrain feature record from `config/mapFeatures.json` (the data
file itself is not in the sources; records are passed in abstractly). -/
structure MapFeatures where
  wallDensity : ℝ
  openness : ℝ
  bushCoverage : ℝ
  laneCount : ℝ

/-- The documented schema ranges for terrain features (comments in
`lib/mapFeatures.js`): openness and bushCoverage in [0,1], laneCount in
[1,4]. -/
def FeaturesValid (f : MapFeatures) : Prop :=
  0 ≤ f.openness ∧ f.openness ≤ 1 ∧ 0 ≤ f.bushCoverage ∧ f.bushCoverage ≤ 1 ∧
    1 ≤ f.laneCount ∧ f.laneCount ≤ 4

/-- `getMapFeatureWeightModifiers` from `lib/mapFeatures.js`, with the JSON
lookup abstracted into the `Option MapFeatures` argument (`none` models an
unknown or absent map name, returning the all-zero modifiers). -/
noncomputable def getMapFeatureWeightModifiers (features : Option MapFeatures) : Weights :=
  match features with
  | none => ⟨0, 0, 0, 0⟩
  | some f =>
    ⟨0.06 * (f.openness - 0.5), 0.04 * ((f.laneCount - 2) / 2),
      -0.03 * (f.openness - 0.5), 0.04 * (f.bushCoverage - 0.5)⟩

/-- `config.changepointDetection` shape. -/
structure ChangepointConfig where
  enabled : Bool
  threshold : ℝ
  recentWindowDays : ℝ
  minRecentGames : ℕ
  minHalfLife : ℝ

/-- The concrete `config.changepointDetection` values. -/
def changepointDetection : ChangepointConfig :=
  ⟨true, 2.5, 3, 30, 2⟩

/-- `config.staleness` shape. -/
structure StalenessConfig where
  pickRateDropThreshold : ℝ
  winRateStabilityThreshold : ℝ
  maxPenalty : ℝ

/-- The concrete `config.staleness` values. -/
def staleness : StalenessConfig := ⟨-0.30, 2.0, 0.50⟩

/-! ## Statistics primitives (`lib/statistics.js`) -/

/-- `mean(values)`: arithmetic mean, 0 for the empty list. -/
noncomputable def mean (values : List ℝ) : ℝ :=
  if values.length = 0 then 0 else values.sum / values.length

/-- `standardDeviation(values)`: population standard deviation, 0 for fewer
than two values. -/
noncomputable def standardDeviation (values : List ℝ) : ℝ :=
  if values.length < 2 then 0
  else Real.sqrt ((values.map (fun v => (v - mean values) ^ 2)).sum / values.length)

/-- `binomialVariance(winRatePct, n) = p(1-p)/n`, with maximum uncertainty
0.25 when `n ≤ 0`. -/
noncomputable def binomialVariance (winRatePct n : ℝ) : ℝ :=
  if n ≤ 0 then 0.25 else winRatePct / 100 * (1 - winRatePct / 100) / n

/-- `betaVariance(alpha, beta) = αβ / ((α+β)²(α+β+1))`, 0 when `α+β ≤ 0`. -/
noncomputable def betaVariance (alpha beta : ℝ) : ℝ :=
  if alpha + beta ≤ 0 then 0
  else alpha * beta / ((alpha + beta) ^ 2 * (alpha + beta + 1))

/-! ## Bayesian confidence -/

/-- `calculateBayesianConfidence(wins, losses, priorWins, priorLosses)`:
`max(0, 1 - 4·√(αβ/((α+β)²(α+β+1))))` with `α = wins + priorWins` and
`β = losses + priorLosses`. -/
noncomputable def calculateBayesianConfidence
    (wins losses priorWins priorLosses : ℝ) : ℝ :=
  let alpha := wins + priorWins
  let beta := losses + priorLosses
  let total := alpha + beta
  let variance := alpha * beta / (total ^ 2 * (total + 1))
  max 0 (1 - 4 * Real.sqrt variance)

/-! ## Time-weighted win rate -/

/-- The exponential decay weight `exp(-daysAgo / halfLifeDays)` of one game. -/
noncomputable def gameWeight (halfLifeDays now : ℝ) (g : Game) : ℝ :=
  Real.exp (-((now - g.timestamp) / dayMs) / halfLifeDays)

/-- The accumulated `totalWeight` of `calculateTimeWeightedWinRate`. -/
noncomputable def totalGameWeight (games : List Game) (halfLifeDays now : ℝ) : ℝ :=
  (games.map (gameWeight halfLifeDays now)).sum

/-- The accumulated `weightedWins` of `calculateTimeWeightedWinRate`. -/
noncomputable def weightedWins (games : List Game) (halfLifeDays now : ℝ) : ℝ :=
  ((games.filter (fun g => g.isWin)).map (gameWeight halfLifeDays now)).sum

/-- `calculateTimeWeightedWinRate(games, halfLifeDays)`: `none` (JS `null`)
when there are no games, otherwise the decay-weighted win percentage. -/
noncomputable def calculateTimeWeightedWinRate
    (games : List Game) (halfLifeDays now : ℝ) : Option ℝ :=
  if games.isEmpty then none
  else if totalGameWeight games halfLifeDays now = 0 then some 0
  else some (weightedWins games halfLifeDays now /
    totalGameWeight games halfLifeDays now * 100)

/-! ## Changepoint detection (`lib/changepoint.js`) -/

/-- Result record of `detectChangepoint`. -/
structure CPResult where
  isChangepoint : Bool
  effectiveHalfLife : ℝ
  zShift : ℝ

/-- The "recent" window: games whose timestamp is at least
`now - recentWindowDays · dayMs`. -/
noncomputable def recentWindowOf
    (games : List Game) (cfg : ChangepointConfig) (now : ℝ) : List Game :=
  games.filter (fun g => decide (now - cfg.recentWindowDays * dayMs ≤ g.timestamp))

/-- The "historical" window: games whose timestamp is at least
`now - halfLifeDays · dayMs`. -/
noncomputable def histWindowOf
    (games : List Game) (halfLifeDays now : ℝ) : List Game :=
  games.filter (fun g => decide (now - halfLifeDays * dayMs ≤ g.timestamp))

/-- Number of wins in a list of games. -/
def winCount (l : List Game) : ℕ := (l.filter (fun g => g.isWin)).length

/-- Fraction of wins in a list of games. -/
noncomputable def winFraction (l : List Game) : ℝ := (winCount l : ℝ) / l.length

/-- `pRecent`: win fraction of the recent window. -/
noncomputable def pRecentOf
    (games : List Game) (cfg : ChangepointConfig) (now : ℝ) : ℝ :=
  winFraction (recentWindowOf games cfg now)

/-- `pHist`: win fraction of the historical window, falling back to the
neutral 0.5 when that window is empty. -/
noncomputable def pHistOf (games : List Game) (halfLifeDays now : ℝ) : ℝ :=
  if 0 < (histWindowOf games halfLifeDays now).length
  then winFraction (histWindowOf games halfLifeDays now)
  else 0.5

/-- The standard error `√(pHist(1-pHist)/nRecent)` of the binomial z-test. -/
noncomputable def seOf (games : List Game) (halfLifeDays : ℝ)
    (cfg : ChangepointConfig) (now : ℝ) : ℝ :=
  Real.sqrt (pHistOf games halfLifeDays now * (1 - pHistOf games halfLifeDays now) /
    (recentWindowOf games cfg now).length)

/-- The z statistic `|pRecent - pHist| / se`. -/
noncomputable def zShiftOf (games : List Game) (halfLifeDays : ℝ)
    (cfg : ChangepointConfig) (now : ℝ) : ℝ :=
  |pRecentOf games cfg now - pHistOf games halfLifeDays now| /
    seOf games halfLifeDays cfg now

/-- `detectChangepoint(games, halfLifeDays, cfg)` from `lib/changepoint.js`. -/
noncomputable def detectChangepoint (games : List Game) (halfLifeDays : ℝ)
    (cfg : ChangepointConfig) (now : ℝ) : CPResult :=
  if cfg.enabled = false then ⟨false, halfLifeDays, 0⟩
  else if games.isEmpty then ⟨false, halfLifeDays, 0⟩
  else if (recentWindowOf games cfg now).length < cfg.minRecentGames then
    ⟨false, halfLifeDays, 0⟩
  else if seOf games halfLifeDays cfg now = 0 then ⟨false, halfLifeDays, 0⟩
  else if cfg.threshold < zShiftOf games halfLifeDays cfg now then
    ⟨true, max cfg.minHalfLife (halfLifeDays / zShiftOf games halfLifeDays cfg now),
      zShiftOf games halfLifeDays cfg now⟩
  else ⟨false, halfLifeDays, zShiftOf games halfLifeDays cfg now⟩

/-- `computeStaleness(recentPickRate, historicalPickRate, recentWR,
historicalWR, cfg)` from `lib/changepoint.js`.  The JS guard
`!historicalPickRate || historicalPickRate <= 0` collapses to
`historicalPickRate ≤ 0` over the reals. -/
noncomputable def computeStaleness
    (recentPickRate historicalPickRate recentWR historicalWR : ℝ)
    (cfg : StalenessConfig) : ℝ :=
  if historicalPickRate ≤ 0 then 1
  else if (recentPickRate - historicalPickRate) / historicalPickRate <
        cfg.pickRateDropThreshold ∧
      |recentWR - historicalWR| < cfg.winRateStabilityThreshold
  then max (1 - cfg.maxPenalty)
    (1 + 0.5 * ((recentPickRate - historicalPickRate) / historicalPickRate))
  else 1

/-! ## Composition (synergy) score -/

/-- `brawler.adjustedWinRate || brawler.winRate || 50`. -/
noncomputable def resolveWinRate (adjustedWinRate winRate : Option ℝ) : ℝ :=
  jsOr adjustedWinRate (jsOr winRate 50)

/-- The `name → adjustedWinRate || winRate || 50` map built from
`topBrawlers`; a JS `Map` keeps the last entry for duplicate keys, hence the
`reverse` before the first-match search. -/
noncomputable def brawlerWinRateMap (topBrawlers : List Brawler) (n : String) :
    Option ℝ :=
  (topBrawlers.reverse.find? (fun b => b.name == n)).map
    (fun b => resolveWinRate b.adjustedWinRate b.winRate)

/-- `brawlerMap.get(n) || 50`: a missing member, and a looked-up win rate of
0, both fall back to 50. -/
noncomputable def memberWinRate (topBrawlers : List Brawler) (n : String) : ℝ :=
  jsOr (brawlerWinRateMap topBrawlers n) 50

/-- The teams containing the brawler with more than
`compositionConfig.minTeamSampleCount = 50` recorded games. -/
noncomputable def relevantTeams (brawlerName : String) (allTeams : List Team) :
    List Team :=
  allTeams.filter (fun t => decide (brawlerName ∈ t.brawlers ∧ 50 < jsOr t.count 0))

/-- `Math.log(Math.max(team.count || 1, 1))`. -/
noncomputable def teamWeight (t : Team) : ℝ := Real.log (max (jsOr t.count 1) 1)

/-- The composition lift of one team: team win rate minus the mean of the
members' individual win rates. -/
noncomputable def teamCompLift (topBrawlers : List Brawler) (t : Team) : ℝ :=
  let memberWRs := t.brawlers.map (memberWinRate topBrawlers)
  resolveWinRate t.adjustedWinRate t.winRate - memberWRs.sum / memberWRs.length

/-- The accumulated `totalLift` over a list of teams. -/
noncomputable def totalLift (topBrawlers : List Brawler) (teams : List Team) : ℝ :=
  (teams.map (fun t => teamCompLift topBrawlers t * teamWeight t)).sum

/-- The accumulated `totalWeight` over a list of teams. -/
noncomputable def totalTeamWeight (teams : List Team) : ℝ :=
  (teams.map teamWeight).sum

/-- `calculateCompositionScore(brawlerName, allTeams, topBrawlers)`:
log-weighted average lift mapped into [0,1] by the affine normalisation
`(avgLift + 5) / 10` (`compositionConfig.normalization = {offset: 5,
range: 10}`), 0.5 when no team data qualifies. -/
noncomputable def calculateCompositionScore (brawlerName : String)
    (allTeams : List Team) (topBrawlers : List Brawler) : ℝ :=
  if (relevantTeams brawlerName allTeams).isEmpty then 0.5
  else if totalTeamWeight (relevantTeams brawlerName allTeams) = 0 then 0.5
  else clamp01 ((totalLift topBrawlers (relevantTeams brawlerName allTeams) /
    totalTeamWeight (relevantTeams brawlerName allTeams) + 5) / 10)

/-! ## Continuous use-rate score -/

/-- The guarded z-score `stdDev > 0 ? (value - mean) / stdDev : 0` used by
the use-rate scorer. -/
noncomputable def zOrZero (value avg stdDev : ℝ) : ℝ :=
  if 0 < stdDev then (value - avg) / stdDev else 0

/-- `trapPenalty = trapPenaltyCoeff · max(zUse - zWin, 0)` with
`trapPenaltyCoeff = 0.5`. -/
noncomputable def trapPenaltyOf (zUse zWin : ℝ) : ℝ := 0.5 * max (zUse - zWin) 0

/-- `calculateUseRateScore` (v3 continuous sigmoid): with
`config.continuousUseRate = {winRateCoeff: 2.0, trapPenaltyCoeff: 0.5}`,
`score = 1 / (1 + exp(-(2·zWin - trapPenalty)))`. -/
noncomputable def calculateUseRateScore
    (useRate winRate meanUse stdDevUse meanWin stdDevWin : ℝ) : ℝ :=
  1 / (1 + Real.exp (-(2 * zOrZero winRate meanWin stdDevWin -
    trapPenaltyOf (zOrZero useRate meanUse stdDevUse) (zOrZero winRate meanWin stdDevWin))))

/-! ## Counter-meta score -/

/-- A matchup qualifies when its sample count exceeds
`counterMetaConfig.minMatchupSampleCount = 30` and the opponent is popular
(an empty popular list means all opponents count). -/
noncomputable def matchupQualifies (enemies : List String) (m : Matchup) : Bool :=
  decide (30 < m.sampleCount ∧ (enemies = [] ∨ m.opponent ∈ enemies))

/-- The qualifying sub-list of a matchup list. -/
noncomputable def qualifyingMatchups
    (matchups : List Matchup) (enemies : List String) : List Matchup :=
  matchups.filter (matchupQualifies enemies)

/-- `Math.log(matchup.sampleCount)`. -/
noncomputable def matchupWeight (m : Matchup) : ℝ := Real.log m.sampleCount

/-- The running maximum of the qualifying weights (JS starts at 0). -/
noncomputable def counterMaxWeight (qs : List Matchup) : ℝ :=
  (qs.map matchupWeight).foldl max 0

/-- The accumulated `totalWeight` of the qualifying matchups. -/
noncomputable def counterTotalWeight (qs : List Matchup) : ℝ :=
  (qs.map matchupWeight).sum

/-- The `rawScore`: log-weighted average matchup win rate divided by 100. -/
noncomputable def counterRawScore (qs : List Matchup) : ℝ :=
  (qs.map (fun m => m.winRate * matchupWeight m)).sum / counterTotalWeight qs / 100

/-- The `diversity` term: `totalWeight > maxWeight ? 1 - maxWeight/totalWeight
: 0`. -/
noncomputable def counterDiversity (qs : List Matchup) : ℝ :=
  if counterMaxWeight qs < counterTotalWeight qs
  then 1 - counterMaxWeight qs / counterTotalWeight qs else 0

/-- `calculateCounterMetaScore(brawlerName, matchups, popularEnemies)` (v3,
with the diversity penalty); `counterMetaConfig.defaultScore = 0.5` and
`counterDiversity.minMultiplier = 0.7`. -/
noncomputable def calculateCounterMetaScore (brawlerName : String)
    (matchups : Option (List Matchup)) (popularEnemies : List String) : ℝ :=
  match matchups with
  | none => 0.5
  | some ms =>
    if ms.isEmpty then 0.5
    else if counterTotalWeight (qualifyingMatchups ms popularEnemies) = 0 then 0.5
    else clamp01 (0.5 + (counterRawScore (qualifyingMatchups ms popularEnemies) - 0.5) *
      (0.7 + (1 - 0.7) * counterDiversity (qualifyingMatchups ms popularEnemies)))

/-! ## CPS aggregation -/

/-- The pool win rate of one brawler as used for distribution statistics:
`b.adjustedWinRate || b.winRate`, kept only when non-null (a 0 still counts
as present here, unlike in `resolveWinRate`). -/
noncomputable def poolWinRate (b : Brawler) : Option ℝ :=
  match b.adjustedWinRate with
  | some a => if a = 0 then b.winRate else some a
  | none => b.winRate

/-- The per-pass distribution statistics computed by `computeCPS` when no
pre-calculated `stats` are supplied. -/
noncomputable def poolStats (allBrawlers : List Brawler) : Stats :=
  let winRates := allBrawlers.filterMap poolWinRate
  let useRates := allBrawlers.filterMap (fun b => b.useRate)
  ⟨mean winRates, standardDeviation winRates,
    if 0 < useRates.length then mean useRates else 0,
    if 0 < useRates.length then standardDeviation useRates else 0⟩

/-- The raw (pre-clamp) adjusted weights of `getEffectiveWeights`: base mode
weights plus skill-tier modifiers (with the `competitive` fallback for an
absent tier) plus terrain-feature modifiers. -/
noncomputable def rawWeights (mapType : MapType) (skillTier : Option SkillTier)
    (features : Option MapFeatures) : Weights :=
  ⟨(getMapTypeWeights mapType).performance +
      (skillTierModifiers (skillTier.getD SkillTier.competitive)).performance +
      (getMapFeatureWeightModifiers features).performance,
    (getMapTypeWeights mapType).synergy +
      (skillTierModifiers (skillTier.getD SkillTier.competitive)).synergy +
      (getMapFeatureWeightModifiers features).synergy,
    (getMapTypeWeights mapType).popularity +
      (skillTierModifiers (skillTier.getD SkillTier.competitive)).popularity +
      (getMapFeatureWeightModifiers features).popularity,
    (getMapTypeWeights mapType).counter +
      (skillTierModifiers (skillTier.getD SkillTier.competitive)).counter +
      (getMapFeatureWeightModifiers features).counter⟩

/-- The clamped weights of `getEffectiveWeights`. -/
noncomputable def clampedWeights (mapType : MapType) (skillTier : Option SkillTier)
    (features : Option MapFeatures) : Weights :=
  ⟨clamp01 (rawWeights mapType skillTier features).performance,
    clamp01 (rawWeights mapType skillTier features).synergy,
    clamp01 (rawWeights mapType skillTier features).popularity,
    clamp01 (rawWeights mapType skillTier features).counter⟩

/-- The sum of the clamped weights (the `total` before the `|| 1` guard). -/
noncomputable def clampedTotal (mapType : MapType) (skillTier : Option SkillTier)
    (features : Option MapFeatures) : ℝ :=
  (clampedWeights mapType skillTier features).performance +
    (clampedWeights mapType skillTier features).synergy +
    (clampedWeights mapType skillTier features).popularity +
    (clampedWeights mapType skillTier features).counter

/-- `getEffectiveWeights(mapType, skillTier, mapName)`: base weights plus
skill-tier and terrain-feature modifiers, clamped to [0,1] and renormalised
(with the `|| 1` guard against a zero sum). -/
noncomputable def getEffectiveWeights (mapType : MapType)
    (skillTier : Option SkillTier) (features : Option MapFeatures) : Weights :=
  ⟨(clampedWeights mapType skillTier features).performance /
      (if clampedTotal mapType skillTier features = 0 then 1
        else clampedTotal mapType skillTier features),
    (clampedWeights mapType skillTier features).synergy /
      (if clampedTotal mapType skillTier features = 0 then 1
        else clampedTotal mapType skillTier features),
    (clampedWeights mapType skillTier features).popularity /
      (if clampedTotal mapType skillTier features = 0 then 1
        else clampedTotal mapType skillTier features),
    (clampedWeights mapType skillTier features).counter /
      (if clampedTotal mapType skillTier features = 0 then 1
        else clampedTotal mapType skillTier features)⟩

/-- The changepoint-adjusted half-life used by `computeCPS`
(`config.timeWeighting.halfLifeDays = 14`). -/
noncomputable def effectiveHalfLifeOf (b : Brawler) (now : ℝ) : ℝ :=
  (detectChangepoint b.recentGames 14 changepointDetection now).effectiveHalfLife

/-- The time-weighted win rate of a brawler, falling back (JS `??`) to the
static resolved win rate when there is no game history. -/
noncomputable def timeWeightedWinRateOf (b : Brawler) (now : ℝ) : ℝ :=
  (calculateTimeWeightedWinRate b.recentGames (effectiveHalfLifeOf b now) now).getD
    (resolveWinRate b.adjustedWinRate b.winRate)

/-- `wins = winRate/100 · count` as computed by `computeCPS` and
`computeCPSWithCI`. -/
noncomputable def winsOf (b : Brawler) : ℝ :=
  resolveWinRate b.adjustedWinRate b.winRate / 100 * jsOr b.count 0

/-- `losses = count - wins`. -/
noncomputable def lossesOf (b : Brawler) : ℝ := jsOr b.count 0 - winsOf b

/-- The Bayesian confidence multiplier of a brawler, with the default priors
50/50. -/
noncomputable def confidenceOf (b : Brawler) : ℝ :=
  calculateBayesianConfidence (winsOf b) (lossesOf b) 50 50

/-- The staleness multiplier applied by `computeCPS`: active only when a
historical pick rate is present (`useRate`, a plain number, is never null). -/
noncomputable def stalenessOf (b : Brawler) : ℝ :=
  match b.historicalPickRate with
  | none => 1
  | some hp =>
    computeStaleness (jsOr b.useRate 0) hp (resolveWinRate b.adjustedWinRate b.winRate)
      (b.historicalWinRate.getD (resolveWinRate b.adjustedWinRate b.winRate)) staleness

/-- The use-rate component score of one brawler against the pool statistics
(computed once or supplied pre-calculated). -/
noncomputable def useRateScoreOf (b : Brawler) (allBrawlers : List Brawler)
    (stats : Option Stats) : ℝ :=
  calculateUseRateScore (jsOr b.useRate 0) (resolveWinRate b.adjustedWinRate b.winRate)
    (stats.getD (poolStats allBrawlers)).meanUR
    (stats.getD (poolStats allBrawlers)).stdDevUR
    (stats.getD (poolStats allBrawlers)).meanWR
    (stats.getD (poolStats allBrawlers)).stdDevWR

/-- The weighted base CPS of `computeCPS` before the confidence and staleness
multipliers:
`w.performance·(TWR/100) + w.synergy·composition + w.popularity·useRate +
w.counter·counter`. -/
noncomputable def baseCPSOf (b : Brawler) (allBrawlers : List Brawler)
    (teams : List Team) (mapType : MapType) (stats : Option Stats)
    (skillTier : Option SkillTier) (features : Option MapFeatures) (now : ℝ) : ℝ :=
  (getEffectiveWeights mapType skillTier features).performance *
      (timeWeightedWinRateOf b now / 100) +
    (getEffectiveWeights mapType skillTier features).synergy *
      calculateCompositionScore b.name teams allBrawlers +
    (getEffectiveWeights mapType skillTier features).popularity *
      useRateScoreOf b allBrawlers stats +
    (getEffectiveWeights mapType skillTier features).counter *
      calculateCounterMetaScore b.name b.matchups []

/-- `computeCPS` (v3): the weighted component combination, multiplied by the
Bayesian confidence and the staleness multiplier, rounded to 3 decimals. -/
noncomputable def computeCPS (b : Brawler) (allBrawlers : List Brawler)
    (teams : List Team) (mapType : MapType) (stats : Option Stats)
    (skillTier : Option SkillTier) (features : Option MapFeatures) (now : ℝ) : ℝ :=
  toFixed3 (baseCPSOf b allBrawlers teams mapType stats skillTier features now *
    confidenceOf b * stalenessOf b)

/-- Result record of `computeCPSWithCI` (`ci = [ciLower, ciUpper]`). -/
structure CIResult where
  cps : ℝ
  ciLower : ℝ
  ciUpper : ℝ
  variance : ℝ

/-- The de-rounded `baseCPS = confidence > 0 ? cps / confidence : cps` of
`computeCPSWithCI`. -/
noncomputable def ciBaseCPSOf (b : Brawler) (allBrawlers : List Brawler)
    (teams : List Team) (mapType : MapType) (stats : Option Stats)
    (skillTier : Option SkillTier) (features : Option MapFeatures) (now : ℝ) : ℝ :=
  if 0 < confidenceOf b
  then computeCPS b allBrawlers teams mapType stats skillTier features now /
    confidenceOf b
  else computeCPS b allBrawlers teams mapType stats skillTier features now

/-- The delta-method variance
`Var(CPS) = C²·Σ(wᵢ²·Var(Sᵢ)) + baseCPS²·Var(C)` of `computeCPSWithCI`
(`varComp = 0.02`, `varUseRate = 0.01`, `varCounter = count > 0 ? 0.01 :
0.04`). -/
noncomputable def varCPSOf (b : Brawler) (allBrawlers : List Brawler)
    (teams : List Team) (mapType : MapType) (stats : Option Stats)
    (skillTier : Option SkillTier) (features : Option MapFeatures) (now : ℝ) : ℝ :=
  confidenceOf b ^ 2 *
      ((getEffectiveWeights mapType skillTier features).performance ^ 2 *
          binomialVariance (resolveWinRate b.adjustedWinRate b.winRate) (jsOr b.count 0) +
        (getEffectiveWeights mapType skillTier features).synergy ^ 2 * 0.02 +
        (getEffectiveWeights mapType skillTier features).popularity ^ 2 * 0.01 +
        (getEffectiveWeights mapType skillTier features).counter ^ 2 *
          (if 0 < jsOr b.count 0 then 0.01 else 0.04)) +
    ciBaseCPSOf b allBrawlers teams mapType stats skillTier features now ^ 2 *
      betaVariance (winsOf b + 50) (lossesOf b + 50)

/-- `computeCPSWithCI`: delta-method variance propagation around the CPS,
with `config.ciConfig.zScore = 1.96`. -/
noncomputable def computeCPSWithCI (b : Brawler) (allBrawlers : List Brawler)
    (teams : List Team) (mapType : MapType) (stats : Option Stats)
    (skillTier : Option SkillTier) (features : Option MapFeatures) (now : ℝ) :
    CIResult :=
  ⟨computeCPS b allBrawlers teams mapType stats skillTier features now,
    toFixed3 (max 0 (computeCPS b allBrawlers teams mapType stats skillTier features now -
      1.96 * Real.sqrt (max 0 (varCPSOf b allBrawlers teams mapType stats skillTier features now)))),
    toFixed3 (min 1 (computeCPS b allBrawlers teams mapType stats skillTier features now +
      1.96 * Real.sqrt (max 0 (varCPSOf b allBrawlers teams mapType stats skillTier features now)))),
    toFixed6 (varCPSOf b allBrawlers teams mapType stats skillTier features now)⟩

/-! ## Tier assignment -/

/-- The five tier labels. -/
inductive Tier
  | S
  | A
  | B
  | C
  | F
  deriving DecidableEq

/-- Input record of `assignTiers`: a brawler carrying a CPS score. -/
structure ScoredBrawler where
  name : String
  cps : Option ℝ

/-- Output record of `assignTiers`: the input record plus a tier. -/
structure TieredBrawler where
  name : String
  cps : Option ℝ
  tier : Tier

/-- The sort key `(b.cps || 0)` of the JS comparator. -/
noncomputable def cpsKey (b : ScoredBrawler) : ℝ := b.cps.getD 0

/-- The descending-CPS order used by `assignTiers`; the JS
`sort((a, b) => (b.cps || 0) - (a.cps || 0))` is a stable sort for this
relation. -/
noncomputable def cpsDescOrder (a b : ScoredBrawler) : Prop := cpsKey b ≤ cpsKey a

noncomputable instance : DecidableRel cpsDescOrder :=
  fun a b => Real.decidableLE (cpsKey b) (cpsKey a)

instance : IsTotal ScoredBrawler cpsDescOrder :=
  ⟨fun a b => le_total (cpsKey b) (cpsKey a)⟩

instance : IsTrans ScoredBrawler cpsDescOrder :=
  ⟨fun _ _ _ h1 h2 => le_trans h2 h1⟩

/-- The stable descending-CPS sort (JS `Array.prototype.sort` is stable). -/
noncomputable def sortByCpsDesc (l : List ScoredBrawler) : List ScoredBrawler :=
  List.insertionSort cpsDescOrder l

/-- `sCount = Math.max(tierRules.minSTier, Math.ceil(count · 0.10))`. -/
noncomputable def sTierCount (n : ℕ) : ℕ := max 1 ⌈(n : ℝ) * 0.10⌉₊

/-- `aCount = Math.ceil(count · 0.20)`. -/
noncomputable def aTierCount (n : ℕ) : ℕ := ⌈(n : ℝ) * 0.20⌉₊

/-- `bCount = Math.ceil(count · 0.40)`. -/
noncomputable def bTierCount (n : ℕ) : ℕ := ⌈(n : ℝ) * 0.40⌉₊

/-- `cCount = Math.ceil(count · 0.20)`. -/
noncomputable def cTierCount (n : ℕ) : ℕ := ⌈(n : ℝ) * 0.20⌉₊

/-- The tier of the entity at rank `i` (0-based) in a pool of size `n`. -/
noncomputable def tierFor (n i : ℕ) : Tier :=
  if i < sTierCount n then .S
  else if i < sTierCount n + aTierCount n then .A
  else if i < sTierCount n + aTierCount n + bTierCount n then .B
  else if i < sTierCount n + aTierCount n + bTierCount n + cTierCount n then .C
  else .F

/-- Attach tiers by rank position (the `sorted.map((brawler, index) => ...)`
of `assignTiers`). -/
noncomputable def attachTiers (n : ℕ) : ℕ → List ScoredBrawler → List TieredBrawler
  | _, [] => []
  | i, b :: rest => ⟨b.name, b.cps, tierFor n i⟩ :: attachTiers n (i + 1) rest

/-- `assignTiers(brawlers)`: sort descending by CPS and cut by percentile rank
(the JS early return for an empty pool returns the empty input unchanged,
which coincides with the general path here). -/
noncomputable def assignTiers (brawlers : List ScoredBrawler) : List TieredBrawler :=
  attachTiers (sortByCpsDesc brawlers).length 0 (sortByCpsDesc brawlers)

/-! ## Basic bound lemmas -/

lemma clamp01_nonneg (x : ℝ) : 0 ≤ clamp01 x := le_max_left _ _

lemma clamp01_le_one (x : ℝ) : clamp01 x ≤ 1 :=
  max_le (by norm_num) (min_le_left _ _)

lemma le_clamp01 {c x : ℝ} (hc1 : c ≤ 1) (h : c ≤ x) : c ≤ clamp01 x :=
  le_trans (le_min hc1 h) (le_max_right _ _)

lemma toFixed3_nonneg {x : ℝ} (h : 0 ≤ x) : 0 ≤ toFixed3 x := by
  unfold toFixed3
  have : (0 : ℤ) ≤ ⌊x * 1000 + 1 / 2⌋ := by
    rw [Int.le_floor]
    push_cast
    linarith
  positivity

lemma toFixed3_le_one {x : ℝ} (h : x ≤ 1) : toFixed3 x ≤ 1 := by
  unfold toFixed3
  have : ⌊x * 1000 + 1 / 2⌋ < 1001 := by
    rw [Int.floor_lt]
    push_cast
    linarith
  have h2 : (⌊x * 1000 + 1 / 2⌋ : ℝ) ≤ 1000 := by
    exact_mod_cast Int.lt_add_one_iff.mp this
  linarith [div_le_one_of_le₀ h2 (by norm_num : (0:ℝ) ≤ 1000)]

lemma toFixed3_le_of_le {x : ℝ} {k : ℤ} (h : x ≤ (k : ℝ) / 1000) :
    toFixed3 x ≤ (k : ℝ) / 1000 := by
  unfold toFixed3
  have : ⌊x * 1000 + 1 / 2⌋ < k + 1 := by
    rw [Int.floor_lt]
    push_cast
    linarith
  have h2 : (⌊x * 1000 + 1 / 2⌋ : ℝ) ≤ (k : ℝ) := by
    exact_mod_cast Int.lt_add_one_iff.mp this
  exact div_le_div_of_nonneg_right h2 (by norm_num) |>.trans_eq rfl

lemma le_toFixed3_of_le {x : ℝ} {k : ℤ} (h : (k : ℝ) / 1000 ≤ x) :
    (k : ℝ) / 1000 ≤ toFixed3 x := by
  unfold toFixed3
  have : k ≤ ⌊x * 1000 + 1 / 2⌋ := by
    rw [Int.le_floor]
    push_cast
    linarith
  have h2 : (k : ℝ) ≤ (⌊x * 1000 + 1 / 2⌋ : ℝ) := by exact_mod_cast this
  exact div_le_div_of_nonneg_right h2 (by norm_num)

lemma jsOr_mem {v : Option ℝ} {d lo hi : ℝ} (hd0 : lo ≤ d) (hd1 : d ≤ hi)
    (hv : ∀ x ∈ v, lo ≤ x ∧ x ≤ hi) : lo ≤ jsOr v d ∧ jsOr v d ≤ hi := by
  match v with
  | none => exact ⟨hd0, hd1⟩
  | some x =>
    have hx := hv x rfl
    by_cases hx0 : x = 0
    · simp only [jsOr, hx0, if_pos]
      exact ⟨hd0, hd1⟩
    · simp only [jsOr, hx0, if_neg, not_false_iff]
      exact hx

lemma resolveWinRate_mem {adj wr : Option ℝ}
    (hadj : ∀ x ∈ adj, 0 ≤ x ∧ x ≤ 100) (hwr : ∀ x ∈ wr, 0 ≤ x ∧ x ≤ 100) :
    0 ≤ resolveWinRate adj wr ∧ resolveWinRate adj wr ≤ 100 := by
  unfold resolveWinRate
  have h1 := jsOr_mem (by norm_num : (0:ℝ) ≤ 50) (by norm_num : (50:ℝ) ≤ 100) hwr
  exact jsOr_mem h1.1 h1.2 hadj

lemma sum_map_filter_le (p : α → Bool) (f : α → ℝ) (l : List α)
    (hf : ∀ a ∈ l, 0 ≤ f a) :
    ((l.filter p).map f).sum ≤ (l.map f).sum := by
  induction l with
  | nil => simp
  | cons a l ih =>
    have hfa : 0 ≤ f a := hf a (by simp)
    have ih2 := ih (fun b hb => hf b (by simp [hb]))
    by_cases h : p a
    · simp only [List.filter_cons, h, if_pos, List.map_cons, List.sum_cons]
      linarith
    · simp only [List.filter_cons, h, Bool.false_eq_true, if_neg, not_false_iff,
        List.map_cons, List.sum_cons]
      linarith

lemma sum_map_nonneg (f : α → ℝ) (l : List α) (hf : ∀ a ∈ l, 0 ≤ f a) :
    0 ≤ (l.map f).sum := by
  induction l with
  | nil => simp
  | cons a l ih =>
    have := hf a (by simp)
    have := ih (fun b hb => hf b (by simp [hb]))
    simp only [List.map_cons, List.sum_cons]
    linarith

lemma gameWeight_nonneg (hl now : ℝ) (g : Game) : 0 ≤ gameWeight hl now g :=
  le_of_lt (Real.exp_pos _)

lemma totalGameWeight_nonneg (games : List Game) (hl now : ℝ) :
    0 ≤ totalGameWeight games hl now :=
  sum_map_nonneg _ _ (fun a _ => gameWeight_nonneg hl now a)

lemma weightedWins_nonneg (games : List Game) (hl now : ℝ) :
    0 ≤ weightedWins games hl now :=
  sum_map_nonneg _ _ (fun a _ => gameWeight_nonneg hl now a)

lemma weightedWins_le_total (games : List Game) (hl now : ℝ) :
    weightedWins games hl now ≤ totalGameWeight games hl now :=
  sum_map_filter_le _ _ _ (fun a _ => gameWeight_nonneg hl now a)

lemma calculateTimeWeightedWinRate_mem {games : List Game} {hl now v : ℝ}
    (h : calculateTimeWeightedWinRate games hl now = some v) :
    0 ≤ v ∧ v ≤ 100 := by
  unfold calculateTimeWeightedWinRate at h
  split at h
  · exact absurd h (by simp)
  · split at h
    · rw [Option.some_inj] at h
      norm_num [← h]
    · rw [Option.some_inj] at h
      rename_i hne
      have hnn := totalGameWeight_nonneg games hl now
      have hpos : 0 < totalGameWeight games hl now := lt_of_le_of_ne hnn (Ne.symm hne)
      have hle := weightedWins_le_total games hl now
      have hwn := weightedWins_nonneg games hl now
      constructor
      · rw [← h]
        positivity
      · rw [← h]
        have hq : weightedWins games hl now / totalGameWeight games hl now ≤ 1 :=
          div_le_one_of_le₀ hle hnn
        nlinarith

lemma timeWeightedWinRateOf_mem (b : Brawler) (now : ℝ)
    (hadj : ∀ x ∈ b.adjustedWinRate, 0 ≤ x ∧ x ≤ 100)
    (hwr : ∀ x ∈ b.winRate, 0 ≤ x ∧ x ≤ 100) :
    0 ≤ timeWeightedWinRateOf b now ∧ timeWeightedWinRateOf b now ≤ 100 := by
  unfold timeWeightedWinRateOf
  cases h : calculateTimeWeightedWinRate b.recentGames (effectiveHalfLifeOf b now) now with
  | none => simpa using resolveWinRate_mem hadj hwr
  | some v => simpa using calculateTimeWeightedWinRate_mem h

lemma calculateBayesianConfidence_mem (w l pw pl : ℝ) :
    0 ≤ calculateBayesianConfidence w l pw pl ∧
      calculateBayesianConfidence w l pw pl ≤ 1 := by
  unfold calculateBayesianConfidence
  refine ⟨le_max_left _ _, max_le (by norm_num) ?_⟩
  have := Real.sqrt_nonneg ((w + pw) * (l + pl) /
    ((w + pw + (l + pl)) ^ 2 * (w + pw + (l + pl) + 1)))
  linarith

lemma sigmoid_mem (t : ℝ) :
    0 < 1 / (1 + Real.exp t) ∧ 1 / (1 + Real.exp t) < 1 := by
  have he : 0 < Real.exp t := Real.exp_pos t
  constructor
  · positivity
  · rw [div_lt_one (by positivity)]
    linarith

lemma calculateUseRateScore_mem (u w mu su mw sw : ℝ) :
    0 < calculateUseRateScore u w mu su mw sw ∧
      calculateUseRateScore u w mu su mw sw < 1 :=
  sigmoid_mem _

lemma calculateCompositionScore_mem (n : String) (ts : List Team)
    (tb : List Brawler) :
    0 ≤ calculateCompositionScore n ts tb ∧ calculateCompositionScore n ts tb ≤ 1 := by
  unfold calculateCompositionScore
  split
  · norm_num
  · split
    · norm_num
    · exact ⟨clamp01_nonneg _, clamp01_le_one _⟩

lemma calculateCounterMetaScore_mem (n : String) (ms : Option (List Matchup))
    (es : List String) :
    0 ≤ calculateCounterMetaScore n ms es ∧ calculateCounterMetaScore n ms es ≤ 1 := by
  unfold calculateCounterMetaScore
  match ms with
  | none => norm_num
  | some l =>
    simp only
    split
    · norm_num
    · split
      · norm_num
      · exact ⟨clamp01_nonneg _, clamp01_le_one _⟩

lemma computeStaleness_mem (rp hp rw hw : ℝ) :
    1 / 2 ≤ computeStaleness rp hp rw hw staleness ∧
      computeStaleness rp hp rw hw staleness ≤ 1 := by
  unfold computeStaleness staleness
  split
  · norm_num
  · split
    · rename_i hcond
      constructor
      · have h2 : (1:ℝ) / 2 ≤ 1 - 0.50 := by norm_num
        exact le_trans h2 (le_max_left _ _)
      · have hd : (rp - hp) / hp < -0.30 := hcond.1
        have : 1 + 0.5 * ((rp - hp) / hp) ≤ 1 := by nlinarith
        exact max_le (by norm_num) this
    · norm_num

/-! ## Weight-vector lemmas -/

lemma base_performance_ge (mt : MapType) : 0.4 ≤ (getMapTypeWeights mt).performance := by
  cases mt <;> norm_num [getMapTypeWeights, mapWeights]

lemma tierMods_performance_ge (t : SkillTier) :
    -0.05 ≤ (skillTierModifiers t).performance := by
  cases t <;> norm_num [skillTierModifiers]

lemma featureMods_performance_ge {feats : Option MapFeatures}
    (hf : ∀ f ∈ feats, FeaturesValid f) :
    -0.03 ≤ (getMapFeatureWeightModifiers feats).performance := by
  match feats with
  | none => norm_num [getMapFeatureWeightModifiers]
  | some f =>
    have hv := hf f rfl
    unfold FeaturesValid at hv
    simp only [getMapFeatureWeightModifiers]
    nlinarith [hv.1]

lemma rawWeights_performance_ge (mt : MapType) (tier : Option SkillTier)
    {feats : Option MapFeatures} (hf : ∀ f ∈ feats, FeaturesValid f) :
    0.32 ≤ (rawWeights mt tier feats).performance := by
  have h1 := base_performance_ge mt
  have h2 := tierMods_performance_ge (tier.getD SkillTier.competitive)
  have h3 := featureMods_performance_ge hf
  unfold rawWeights
  dsimp only
  linarith

lemma clampedWeights_nonneg (mt : MapType) (tier : Option SkillTier)
    (feats : Option MapFeatures) :
    0 ≤ (clampedWeights mt tier feats).performance ∧
      0 ≤ (clampedWeights mt tier feats).synergy ∧
      0 ≤ (clampedWeights mt tier feats).popularity ∧
      0 ≤ (clampedWeights mt tier feats).counter :=
  ⟨clamp01_nonneg _, clamp01_nonneg _, clamp01_nonneg _, clamp01_nonneg _⟩

lemma clampedTotal_nonneg (mt : MapType) (tier : Option SkillTier)
    (feats : Option MapFeatures) : 0 ≤ clampedTotal mt tier feats := by
  have h := clampedWeights_nonneg mt tier feats
  unfold clampedTotal
  linarith [h.1, h.2.1, h.2.2.1, h.2.2.2]

lemma clampedTotal_pos (mt : MapType) (tier : Option SkillTier)
    {feats : Option MapFeatures} (hf : ∀ f ∈ feats, FeaturesValid f) :
    0 < clampedTotal mt tier feats := by
  have hp : 0.32 ≤ (clampedWeights mt tier feats).performance :=
    le_clamp01 (by norm_num) (rawWeights_performance_ge mt tier hf)
  have h := clampedWeights_nonneg mt tier feats
  unfold clampedTotal
  linarith [h.2.1, h.2.2.1, h.2.2.2]

/-- The denominator actually used by `getEffectiveWeights` (after the `|| 1`
guard) is always positive. -/
lemma weightsDenom_pos (mt : MapType) (tier : Option SkillTier)
    (feats : Option MapFeatures) :
    0 < (if clampedTotal mt tier feats = 0 then 1 else clampedTotal mt tier feats) := by
  split
  · norm_num
  · exact lt_of_le_of_ne (clampedTotal_nonneg mt tier feats) (by tauto)

lemma effectiveWeights_nonneg (mt : MapType) (tier : Option SkillTier)
    (feats : Option MapFeatures) :
    0 ≤ (getEffectiveWeights mt tier feats).performance ∧
      0 ≤ (getEffectiveWeights mt tier feats).synergy ∧
      0 ≤ (getEffectiveWeights mt tier feats).popularity ∧
      0 ≤ (getEffectiveWeights mt tier feats).counter := by
  have hd := weightsDenom_pos mt tier feats
  have h := clampedWeights_nonneg mt tier feats
  exact ⟨div_nonneg h.1 hd.le, div_nonneg h.2.1 hd.le,
    div_nonneg h.2.2.1 hd.le, div_nonneg h.2.2.2 hd.le⟩

lemma effectiveWeights_le_one (mt : MapType) (tier : Option SkillTier)
    (feats : Option MapFeatures) :
    (getEffectiveWeights mt tier feats).performance ≤ 1 ∧
      (getEffectiveWeights mt tier feats).synergy ≤ 1 ∧
      (getEffectiveWeights mt tier feats).popularity ≤ 1 ∧
      (getEffectiveWeights mt tier feats).counter ≤ 1 := by
  have hd := weightsDenom_pos mt tier feats
  have h := clampedWeights_nonneg mt tier feats
  have key : ∀ c : ℝ, 0 ≤ c → c ≤ clampedTotal mt tier feats →
      c / (if clampedTotal mt tier feats = 0 then 1 else clampedTotal mt tier feats) ≤ 1 := by
    intro c hc0 hc
    split
    · rename_i h0
      rw [h0] at hc
      have : c = 0 := le_antisymm hc hc0
      simp [this]
    · exact div_le_one_of_le₀ hc (clampedTotal_nonneg mt tier feats)
  refine ⟨key _ h.1 ?_, key _ h.2.1 ?_, key _ h.2.2.1 ?_, key _ h.2.2.2 ?_⟩ <;>
    · unfold clampedTotal
      linarith [h.1, h.2.1, h.2.2.1, h.2.2.2]

lemma effectiveWeights_sum_le_one (mt : MapType) (tier : Option SkillTier)
    (feats : Option MapFeatures) :
    (getEffectiveWeights mt tier feats).performance +
      (getEffectiveWeights mt tier feats).synergy +
      (getEffectiveWeights mt tier feats).popularity +
      (getEffectiveWeights mt tier feats).counter ≤ 1 := by
  have h := clampedWeights_nonneg mt tier feats
  unfold getEffectiveWeights
  dsimp only
  split
  · rename_i h0
    have hsum : (clampedWeights mt tier feats).performance +
        (clampedWeights mt tier feats).synergy +
        (clampedWeights mt tier feats).popularity +
        (clampedWeights mt tier feats).counter = 0 := h0
    have hP : (clampedWeights mt tier feats).performance = 0 := by
      linarith [h.1, h.2.1, h.2.2.1, h.2.2.2]
    have hS : (clampedWeights mt tier feats).synergy = 0 := by
      linarith [h.1, h.2.1, h.2.2.1, h.2.2.2]
    have hPop : (clampedWeights mt tier feats).popularity = 0 := by
      linarith [h.1, h.2.1, h.2.2.1, h.2.2.2]
    have hC : (clampedWeights mt tier feats).counter = 0 := by
      linarith [h.1, h.2.1, h.2.2.1, h.2.2.2]
    rw [hP, hS, hPop, hC]
    norm_num
  · rename_i h0
    have ht : 0 < clampedTotal mt tier feats :=
      lt_of_le_of_ne (clampedTotal_nonneg mt tier feats) (Ne.symm h0)
    rw [div_add_div_same, div_add_div_same, div_add_div_same]
    rw [div_le_one ht]
    exact le_of_eq rfl

lemma effectiveWeights_sum_eq_one (mt : MapType) (tier : Option SkillTier)
    {feats : Option MapFeatures} (hf : ∀ f ∈ feats, FeaturesValid f) :
    (getEffectiveWeights mt tier feats).performance +
      (getEffectiveWeights mt tier feats).synergy +
      (getEffectiveWeights mt tier feats).popularity +
      (getEffectiveWeights mt tier feats).counter = 1 := by
  have ht := clampedTotal_pos mt tier hf
  have hne : clampedTotal mt tier feats ≠ 0 := ne_of_gt ht
  unfold getEffectiveWeights
  dsimp only
  rw [if_neg hne]
  rw [div_add_div_same, div_add_div_same, div_add_div_same]
  exact div_self hne

lemma stalenessOf_mem (b : Brawler) : 0 ≤ stalenessOf b ∧ stalenessOf b ≤ 1 := by
  unfold stalenessOf
  match b.historicalPickRate with
  | none => norm_num
  | some hp =>
    have := computeStaleness_mem (jsOr b.useRate 0) hp
      (resolveWinRate b.adjustedWinRate b.winRate)
      (b.historicalWinRate.getD (resolveWinRate b.adjustedWinRate b.winRate))
    exact ⟨by linarith [this.1], this.2⟩

lemma useRateScoreOf_mem (b : Brawler) (allB : List Brawler) (stats : Option Stats) :
    0 < useRateScoreOf b allB stats ∧ useRateScoreOf b allB stats < 1 :=
  calculateUseRateScore_mem _ _ _ _ _ _

lemma confidenceOf_mem (b : Brawler) : 0 ≤ confidenceOf b ∧ confidenceOf b ≤ 1 :=
  calculateBayesianConfidence_mem _ _ _ _

lemma baseCPSOf_mem (b : Brawler) (allB : List Brawler) (teams : List Team)
    (mt : MapType) (stats : Option Stats) (tier : Option SkillTier)
    (feats : Option MapFeatures) (now : ℝ)
    (hadj : ∀ x ∈ b.adjustedWinRate, 0 ≤ x ∧ x ≤ 100)
    (hwr : ∀ x ∈ b.winRate, 0 ≤ x ∧ x ≤ 100) :
    0 ≤ baseCPSOf b allB teams mt stats tier feats now ∧
      baseCPSOf b allB teams mt stats tier feats now ≤ 1 := by
  obtain ⟨htw0, htw1⟩ := timeWeightedWinRateOf_mem b now hadj hwr
  have hw0 := effectiveWeights_nonneg mt tier feats
  have hw1 := effectiveWeights_sum_le_one mt tier feats
  have hcs := calculateCompositionScore_mem b.name teams allB
  have hus := useRateScoreOf_mem b allB stats
  have hct := calculateCounterMetaScore_mem b.name b.matchups []
  unfold baseCPSOf
  constructor
  · have t1 : 0 ≤ (getEffectiveWeights mt tier feats).performance *
        (timeWeightedWinRateOf b now / 100) := mul_nonneg hw0.1 (by linarith)
    have t2 : 0 ≤ (getEffectiveWeights mt tier feats).synergy *
        calculateCompositionScore b.name teams allB := mul_nonneg hw0.2.1 hcs.1
    have t3 : 0 ≤ (getEffectiveWeights mt tier feats).popularity *
        useRateScoreOf b allB stats := mul_nonneg hw0.2.2.1 hus.1.le
    have t4 : 0 ≤ (getEffectiveWeights mt tier feats).counter *
        calculateCounterMetaScore b.name b.matchups [] := mul_nonneg hw0.2.2.2 hct.1
    linarith
  · have e1 : (getEffectiveWeights mt tier feats).performance *
        (timeWeightedWinRateOf b now / 100) ≤
        (getEffectiveWeights mt tier feats).performance :=
      mul_le_of_le_one_right hw0.1 (by linarith)
    have e2 : (getEffectiveWeights mt tier feats).synergy *
        calculateCompositionScore b.name teams allB ≤
        (getEffectiveWeights mt tier feats).synergy :=
      mul_le_of_le_one_right hw0.2.1 hcs.2
    have e3 : (getEffectiveWeights mt tier feats).popularity *
        useRateScoreOf b allB stats ≤
        (getEffectiveWeights mt tier feats).popularity :=
      mul_le_of_le_one_right hw0.2.2.1 hus.2.le
    have e4 : (getEffectiveWeights mt tier feats).counter *
        calculateCounterMetaScore b.name b.matchups [] ≤
        (getEffectiveWeights mt tier feats).counter :=
      mul_le_of_le_one_right hw0.2.2.2 hct.2
    linarith

lemma cpsProduct_mem (b : Brawler) (allB : List Brawler) (teams : List Team)
    (mt : MapType) (stats : Option Stats) (tier : Option SkillTier)
    (feats : Option MapFeatures) (now : ℝ)
    (hadj : ∀ x ∈ b.adjustedWinRate, 0 ≤ x ∧ x ≤ 100)
    (hwr : ∀ x ∈ b.winRate, 0 ≤ x ∧ x ≤ 100) :
    0 ≤ baseCPSOf b allB teams mt stats tier feats now * confidenceOf b * stalenessOf b ∧
      baseCPSOf b allB teams mt stats tier feats now * confidenceOf b * stalenessOf b ≤ 1 := by
  obtain ⟨hb0, hb1⟩ := baseCPSOf_mem b allB teams mt stats tier feats now hadj hwr
  obtain ⟨hc0, hc1⟩ := confidenceOf_mem b
  obtain ⟨hs0, hs1⟩ := stalenessOf_mem b
  have hbc0 : 0 ≤ baseCPSOf b allB teams mt stats tier feats now * confidenceOf b :=
    mul_nonneg hb0 hc0
  have hbc1 : baseCPSOf b allB teams mt stats tier feats now * confidenceOf b ≤ 1 := by
    nlinarith
  constructor
  · exact mul_nonneg hbc0 hs0
  · nlinarith

lemma computeCPS_mem (b : Brawler) (allB : List Brawler) (teams : List Team)
    (mt : MapType) (stats : Option Stats) (tier : Option SkillTier)
    (feats : Option MapFeatures) (now : ℝ)
    (hadj : ∀ x ∈ b.adjustedWinRate, 0 ≤ x ∧ x ≤ 100)
    (hwr : ∀ x ∈ b.winRate, 0 ≤ x ∧ x ≤ 100) :
    0 ≤ computeCPS b allB teams mt stats tier feats now ∧
      computeCPS b allB teams mt stats tier feats now ≤ 1 := by
  obtain ⟨h0, h1⟩ := cpsProduct_mem b allB teams mt stats tier feats now hadj hwr
  exact ⟨toFixed3_nonneg h0, toFixed3_le_one h1⟩

/-! ## Claim theorems -/

/-- C1: for every brawler whose winRate / adjustedWinRate (when present) lie
in [0,100], whose useRate lies in [0,100] and whose count is nonnegative,
`computeCPS` returns the weighted base CPS
`w.performance·(TWR/100) + w.synergy·compositionScore +
w.popularity·useRateScore + w.counter·counterScore` multiplied by the
Bayesian confidence and by the staleness multiplier and rounded to 3 decimal
places, and the returned value lies in [0,1]. -/
theorem C1_computeCPS_formula_and_range (b : Brawler) (allB : List Brawler)
    (teams : List Team) (mt : MapType) (stats : Option Stats)
    (tier : Option SkillTier) (feats : Option MapFeatures) (now : ℝ)
    (hwr : ∀ x ∈ b.winRate, 0 ≤ x ∧ x ≤ 100)
    (hadj : ∀ x ∈ b.adjustedWinRate, 0 ≤ x ∧ x ≤ 100)
    (_huse : ∀ x ∈ b.useRate, 0 ≤ x ∧ x ≤ 100)
    (_hcount : ∀ x ∈ b.count, 0 ≤ x) :
    computeCPS b allB teams mt stats tier feats now =
      toFixed3 (((getEffectiveWeights mt tier feats).performance *
          (timeWeightedWinRateOf b now / 100) +
        (getEffectiveWeights mt tier feats).synergy *
          calculateCompositionScore b.name teams allB +
        (getEffectiveWeights mt tier feats).popularity *
          useRateScoreOf b allB stats +
        (getEffectiveWeights mt tier feats).counter *
          calculateCounterMetaScore b.name b.matchups []) *
        confidenceOf b * stalenessOf b) ∧
    0 ≤ computeCPS b allB teams mt stats tier feats now ∧
      computeCPS b allB teams mt stats tier feats now ≤ 1 :=
  ⟨rfl, computeCPS_mem b allB teams mt stats tier feats now hadj hwr⟩

/-- Witness for C1 at a concrete brawler. -/
theorem C1_witness :
    0 ≤ computeCPS ⟨"piper", some 55, none, some 10, some 200, [], none, none, none⟩
        [] [] MapType.gemGrab none none none 0 ∧
      computeCPS ⟨"piper", some 55, none, some 10, some 200, [], none, none, none⟩
        [] [] MapType.gemGrab none none none 0 ≤ 1 := by
  have h := C1_computeCPS_formula_and_range
    ⟨"piper", some 55, none, some 10, some 200, [], none, none, none⟩
    [] [] MapType.gemGrab none none none 0
    (by intro x hx; rw [Option.mem_def, Option.some_inj] at hx; subst hx; norm_num)
    (by intro x hx; exact absurd hx (by simp))
    (by intro x hx; rw [Option.mem_def, Option.some_inj] at hx; subst hx; norm_num)
    (by intro x hx; rw [Option.mem_def, Option.some_inj] at hx; subst hx; norm_num)
  exact h.2

/-- C2: for every mode tag, skill tier (including absent) and terrain-feature
record within the documented schema ranges (including unknown/absent maps),
the effective weight vector has all four components in [0,1] and the four
components sum to exactly 1, by clamping and renormalising. -/
theorem C2_getEffectiveWeights_unit_sum (mt : MapType) (tier : Option SkillTier)
    (feats : Option MapFeatures) (hf : ∀ f ∈ feats, FeaturesValid f) :
    (0 ≤ (getEffectiveWeights mt tier feats).performance ∧
      (getEffectiveWeights mt tier feats).performance ≤ 1) ∧
    (0 ≤ (getEffectiveWeights mt tier feats).synergy ∧
      (getEffectiveWeights mt tier feats).synergy ≤ 1) ∧
    (0 ≤ (getEffectiveWeights mt tier feats).popularity ∧
      (getEffectiveWeights mt tier feats).popularity ≤ 1) ∧
    (0 ≤ (getEffectiveWeights mt tier feats).counter ∧
      (getEffectiveWeights mt tier feats).counter ≤ 1) ∧
    (getEffectiveWeights mt tier feats).performance +
      (getEffectiveWeights mt tier feats).synergy +
      (getEffectiveWeights mt tier feats).popularity +
      (getEffectiveWeights mt tier feats).counter = 1 := by
  have h0 := effectiveWeights_nonneg mt tier feats
  have h1 := effectiveWeights_le_one mt tier feats
  exact ⟨⟨h0.1, h1.1⟩, ⟨h0.2.1, h1.2.1⟩, ⟨h0.2.2.1, h1.2.2.1⟩, ⟨h0.2.2.2, h1.2.2.2⟩,
    effectiveWeights_sum_eq_one mt tier hf⟩

/-- Witness for C2 at a concrete mode, tier and feature record. -/
theorem C2_witness :
    (getEffectiveWeights MapType.showdown (some SkillTier.pro)
        (some ⟨0.5, 0.7, 0.3, 3⟩)).performance +
      (getEffectiveWeights MapType.showdown (some SkillTier.pro)
        (some ⟨0.5, 0.7, 0.3, 3⟩)).synergy +
      (getEffectiveWeights MapType.showdown (some SkillTier.pro)
        (some ⟨0.5, 0.7, 0.3, 3⟩)).popularity +
      (getEffectiveWeights MapType.showdown (some SkillTier.pro)
        (some ⟨0.5, 0.7, 0.3, 3⟩)).counter = 1 := by
  have h := C2_getEffectiveWeights_unit_sum MapType.showdown (some SkillTier.pro)
    (some ⟨0.5, 0.7, 0.3, 3⟩)
    (by intro f hf; rw [Option.mem_def, Option.some_inj] at hf; subst hf
        norm_num [FeaturesValid])
  exact h.2.2.2.2

/-! ## Use-rate scorer lemmas and C5 -/

lemma zOrZero_self (a s : ℝ) : zOrZero a a s = 0 := by
  unfold zOrZero
  split <;> simp

/-- C5: the continuous use-rate scorer is exactly 0.5 when both z-scores are
0 (use rate and win rate at the pool means), always lies strictly inside
(0,1), and whenever the use-rate z-score does not exceed the win-rate z-score
the trap penalty is 0 and the score is the sigmoid of the win-rate term
alone. -/
theorem C5_useRateScore_properties (u w mu su mw sw : ℝ) :
    (u = mu ∧ w = mw → calculateUseRateScore u w mu su mw sw = 1 / 2) ∧
    (0 < calculateUseRateScore u w mu su mw sw ∧
      calculateUseRateScore u w mu su mw sw < 1) ∧
    (zOrZero u mu su ≤ zOrZero w mw sw →
      trapPenaltyOf (zOrZero u mu su) (zOrZero w mw sw) = 0 ∧
      calculateUseRateScore u w mu su mw sw =
        1 / (1 + Real.exp (-(2 * zOrZero w mw sw)))) := by
  refine ⟨?_, calculateUseRateScore_mem u w mu su mw sw, ?_⟩
  · rintro ⟨rfl, rfl⟩
    unfold calculateUseRateScore trapPenaltyOf
    rw [zOrZero_self, zOrZero_self]
    norm_num [Real.exp_zero]
  · intro h
    have hp : trapPenaltyOf (zOrZero u mu su) (zOrZero w mw sw) = 0 := by
      unfold trapPenaltyOf
      rw [max_eq_right (sub_nonpos.mpr h)]
      ring
    refine ⟨hp, ?_⟩
    unfold calculateUseRateScore
    rw [hp]
    ring_nf

/-- Witness for C5 at concrete pool statistics. -/
theorem C5_witness :
    calculateUseRateScore 10 50 10 5 50 5 = 1 / 2 ∧
      (0 < calculateUseRateScore 10 50 10 5 50 5 ∧
        calculateUseRateScore 10 50 10 5 50 5 < 1) ∧
      trapPenaltyOf (zOrZero 10 10 5) (zOrZero 50 50 5) = 0 := by
  have h := C5_useRateScore_properties 10 50 10 5 50 5
  exact ⟨h.1 ⟨rfl, rfl⟩, h.2.1,
    (h.2.2 (by norm_num [zOrZero])).1⟩

/-! ## Counter-meta lemmas and C6 -/

lemma sum_map_pos {l : List α} (f : α → ℝ) (hne : l ≠ [])
    (hf : ∀ a ∈ l, 0 < f a) : 0 < (l.map f).sum := by
  match l with
  | [] => exact absurd rfl hne
  | a :: rest =>
    have h1 : 0 < f a := hf a (by simp)
    have h2 : 0 ≤ (rest.map f).sum :=
      sum_map_nonneg _ _ (fun b hb => (hf b (by simp [hb])).le)
    simp only [List.map_cons, List.sum_cons]
    linarith

lemma qualifying_sampleCount {ms : List Matchup} {es : List String} {m : Matchup}
    (hm : m ∈ qualifyingMatchups ms es) : 30 < m.sampleCount := by
  unfold qualifyingMatchups at hm
  have := (List.mem_filter.mp hm).2
  unfold matchupQualifies at this
  exact (of_decide_eq_true this).1

lemma matchupWeight_pos {ms : List Matchup} {es : List String} {m : Matchup}
    (hm : m ∈ qualifyingMatchups ms es) : 0 < matchupWeight m := by
  unfold matchupWeight
  exact Real.log_pos (by linarith [qualifying_sampleCount hm])

lemma counterTotalWeight_pos {ms : List Matchup} {es : List String}
    (h : qualifyingMatchups ms es ≠ []) :
    0 < counterTotalWeight (qualifyingMatchups ms es) :=
  sum_map_pos _ h (fun m hm => matchupWeight_pos hm)

lemma foldl_max_le_sum_add (l : List ℝ) (a : ℝ) (hl : ∀ x ∈ l, 0 ≤ x)
    (ha : 0 ≤ a) : l.foldl max a ≤ a + l.sum := by
  induction l generalizing a with
  | nil => simp
  | cons x rest ih =>
    have hx : 0 ≤ x := hl x (by simp)
    have h1 : rest.foldl max (max a x) ≤ max a x + rest.sum :=
      ih (max a x) (fun y hy => hl y (by simp [hy])) (le_max_of_le_left ha)
    have h2 : max a x ≤ a + x := max_le (by linarith) (by linarith)
    simp only [List.foldl_cons, List.sum_cons]
    linarith

lemma counterMaxWeight_le {ms : List Matchup} {es : List String} :
    counterMaxWeight (qualifyingMatchups ms es) ≤
      counterTotalWeight (qualifyingMatchups ms es) := by
  unfold counterMaxWeight counterTotalWeight
  have := foldl_max_le_sum_add ((qualifyingMatchups ms es).map matchupWeight) 0
    (fun x hx => by
      obtain ⟨m, hm, rfl⟩ := List.mem_map.mp hx
      exact (matchupWeight_pos hm).le)
    le_rfl
  linarith

lemma counterDiversity_eq {qs : List Matchup} (h0 : 0 < counterTotalWeight qs)
    (hm : counterMaxWeight qs ≤ counterTotalWeight qs) :
    counterDiversity qs = 1 - counterMaxWeight qs / counterTotalWeight qs := by
  unfold counterDiversity
  split
  · rfl
  · rename_i hlt
    have heq : counterMaxWeight qs = counterTotalWeight qs :=
      le_antisymm hm (not_lt.mp hlt)
    rw [heq, div_self (ne_of_gt h0)]
    norm_num

/-- C6: the counter-meta scorer returns the neutral default 0.5 when the
matchup list is absent, and when no matchup qualifies; otherwise it returns
`0.5 + (rawScore - 0.5) · (minMultiplier + (1 - minMultiplier) · diversity)`
clamped to [0,1], with `rawScore` the log-weighted average win rate over 100
and `diversity = 1 - maxWeight/totalWeight`. -/
theorem C6_counterMetaScore_formula (name : String) (ms : List Matchup)
    (es : List String) :
    calculateCounterMetaScore name none es = 0.5 ∧
    (qualifyingMatchups ms es = [] →
      calculateCounterMetaScore name (some ms) es = 0.5) ∧
    (qualifyingMatchups ms es ≠ [] →
      calculateCounterMetaScore name (some ms) es =
        clamp01 (0.5 + (counterRawScore (qualifyingMatchups ms es) - 0.5) *
          (0.7 + (1 - 0.7) * (1 - counterMaxWeight (qualifyingMatchups ms es) /
            counterTotalWeight (qualifyingMatchups ms es))))) := by
  refine ⟨rfl, ?_, ?_⟩
  · intro h
    simp only [calculateCounterMetaScore]
    split
    · rfl
    · rw [h]
      simp [counterTotalWeight]
  · intro h
    have hpos := counterTotalWeight_pos h
    have hms : ¬ ms.isEmpty = true := by
      intro he
      rw [List.isEmpty_iff] at he
      subst he
      exact h (by simp [qualifyingMatchups])
    simp only [calculateCounterMetaScore]
    rw [if_neg hms, if_neg (ne_of_gt hpos)]
    rw [counterDiversity_eq hpos counterMaxWeight_le]

/-- Witness for C6: one qualifying matchup versus a filtered-out one. -/
theorem C6_witness :
    calculateCounterMetaScore "shelly" none [] = 0.5 ∧
      calculateCounterMetaScore "shelly" (some [⟨"mortis", 65, 10⟩]) [] = 0.5 := by
  have h1 := C6_counterMetaScore_formula "shelly" ([⟨"mortis", 65, 10⟩] : List Matchup) []
  refine ⟨h1.1, h1.2.1 ?_⟩
  have hq : matchupQualifies [] (⟨"mortis", 65, 10⟩ : Matchup) = false := by
    unfold matchupQualifies
    rw [decide_eq_false_iff_not]
    intro hc
    exact absurd hc.1 (by norm_num)
  unfold qualifyingMatchups
  simp [hq]

/-! ## Bayesian confidence monotonicity (C4) -/

/-- The Beta-distribution variance term inside `calculateBayesianConfidence`
with the default 50/50 priors. -/
noncomputable def betaConfVar (w l : ℝ) : ℝ :=
  (w + 50) * (l + 50) / ((w + 50 + (l + 50)) ^ 2 * (w + 50 + (l + 50) + 1))

lemma conf_eq_max (w l : ℝ) :
    calculateBayesianConfidence w l 50 50 =
      max 0 (1 - 4 * Real.sqrt (betaConfVar w l)) := rfl

lemma betaConfVar_nonneg {w l : ℝ} (hw : 0 ≤ w) (hl : 0 ≤ l) :
    0 ≤ betaConfVar w l := by
  unfold betaConfVar
  apply div_nonneg
  · nlinarith
  · nlinarith

lemma betaConfVar_le {w l : ℝ} (hw : 0 ≤ w) (hl : 0 ≤ l) :
    betaConfVar w l ≤ 1 / 404 := by
  unfold betaConfVar
  rw [div_le_div_iff (by nlinarith) (by norm_num)]
  nlinarith [sq_nonneg (w - l), sq_nonneg (w + l + 100), sq_nonneg (w + l)]

lemma conf_width_lt_one {w l : ℝ} (hw : 0 ≤ w) (hl : 0 ≤ l) :
    4 * Real.sqrt (betaConfVar w l) < 1 := by
  have h1 := betaConfVar_le hw hl
  have h2 : Real.sqrt (betaConfVar w l) ≤ Real.sqrt (1 / 404) :=
    Real.sqrt_le_sqrt h1
  have h3 : Real.sqrt (1 / 404) < 1 / 4 :=
    (Real.sqrt_lt' (by norm_num)).mpr (by norm_num)
  linarith

lemma conf_eq_sub {w l : ℝ} (hw : 0 ≤ w) (hl : 0 ≤ l) :
    calculateBayesianConfidence w l 50 50 =
      1 - 4 * Real.sqrt (betaConfVar w l) := by
  rw [conf_eq_max]
  exact max_eq_right (by linarith [conf_width_lt_one hw hl])

lemma betaConfVar_strict_anti {w l s₁ s₂ : ℝ} (hw : 0 ≤ w) (hl : 0 ≤ l)
    (hwl : 0 < w + l) (hs₁ : 0 ≤ s₁) (hs : s₁ < s₂) :
    betaConfVar (w * s₂) (l * s₂) < betaConfVar (w * s₁) (l * s₁) := by
  have hs₂ : 0 ≤ s₂ := le_of_lt (lt_of_le_of_lt hs₁ hs)
  have hA1 : (0:ℝ) < w * s₁ + 50 := by nlinarith
  have hB1 : (0:ℝ) < l * s₁ + 50 := by nlinarith
  have hA2 : (0:ℝ) < w * s₂ + 50 := by nlinarith
  have hB2 : (0:ℝ) < l * s₂ + 50 := by nlinarith
  have hT1 : (0:ℝ) < w * s₁ + 50 + (l * s₁ + 50) := by linarith
  have hT2 : (0:ℝ) < w * s₂ + 50 + (l * s₂ + 50) := by linarith
  have hTlt : w * s₁ + 50 + (l * s₁ + 50) < w * s₂ + 50 + (l * s₂ + 50) := by
    nlinarith
  unfold betaConfVar
  rw [div_lt_div_iff (by positivity) (by positivity)]
  have key : (w * s₁ + 50) * (l * s₁ + 50) * (w * s₂ + 50 + (l * s₂ + 50)) ^ 2 -
      (w * s₂ + 50) * (l * s₂ + 50) * (w * s₁ + 50 + (l * s₁ + 50)) ^ 2 =
      (s₂ - s₁) * (50 * (w + l) ^ 2 - 200 * (w * l)) *
        ((w + l) * s₁ * s₂ + 50 * (s₁ + s₂)) := by
    ring
  have hfac : 0 ≤ (s₂ - s₁) * (50 * (w + l) ^ 2 - 200 * (w * l)) *
      ((w + l) * s₁ * s₂ + 50 * (s₁ + s₂)) := by
    have f1 : (0:ℝ) ≤ s₂ - s₁ := by linarith
    have f2 : (0:ℝ) ≤ 50 * (w + l) ^ 2 - 200 * (w * l) := by
      nlinarith [sq_nonneg (w - l)]
    have f3 : (0:ℝ) ≤ (w + l) * s₁ * s₂ + 50 * (s₁ + s₂) := by
      have := mul_nonneg (mul_nonneg hwl.le hs₁) hs₂
      linarith
    exact mul_nonneg (mul_nonneg f1 f2) f3
  have hE : (w * s₂ + 50) * (l * s₂ + 50) * (w * s₁ + 50 + (l * s₁ + 50)) ^ 2 ≤
      (w * s₁ + 50) * (l * s₁ + 50) * (w * s₂ + 50 + (l * s₂ + 50)) ^ 2 := by
    linarith [key, hfac]
  have hA1B1T2pos : (0:ℝ) <
      (w * s₁ + 50) * (l * s₁ + 50) * (w * s₂ + 50 + (l * s₂ + 50)) ^ 2 := by
    positivity
  have p1 : (0:ℝ) < (w * s₁ + 50) * (l * s₁ + 50) * (w * s₂ + 50 + (l * s₂ + 50)) ^ 2 *
      ((w * s₂ + 50 + (l * s₂ + 50)) - (w * s₁ + 50 + (l * s₁ + 50))) :=
    mul_pos hA1B1T2pos (by linarith)
  have p2 : (0:ℝ) ≤ ((w * s₁ + 50) * (l * s₁ + 50) * (w * s₂ + 50 + (l * s₂ + 50)) ^ 2 -
      (w * s₂ + 50) * (l * s₂ + 50) * (w * s₁ + 50 + (l * s₁ + 50)) ^ 2) *
      ((w * s₁ + 50 + (l * s₁ + 50)) + 1) :=
    mul_nonneg (by linarith) (by linarith)
  nlinarith [p1, p2]

/-- C4: with the default 50/50 priors, the Bayesian confidence strictly
increases as the total sample grows with the win:loss ratio held fixed, and
`confidence(1000,1000) > confidence(100,100) > confidence(10,10)`,
`confidence(1000,1000) > 0.9`, `confidence(10,10) < 0.85`. -/
theorem C4_bayesianConfidence_monotone (w l s₁ s₂ : ℝ) (hw : 0 ≤ w) (hl : 0 ≤ l)
    (hwl : 0 < w + l) (hs₁ : 0 ≤ s₁) (hs : s₁ < s₂) :
    calculateBayesianConfidence (w * s₁) (l * s₁) 50 50 <
      calculateBayesianConfidence (w * s₂) (l * s₂) 50 50 ∧
    calculateBayesianConfidence 100 100 50 50 <
      calculateBayesianConfidence 1000 1000 50 50 ∧
    calculateBayesianConfidence 10 10 50 50 <
      calculateBayesianConfidence 100 100 50 50 ∧
    0.9 < calculateBayesianConfidence 1000 1000 50 50 ∧
    calculateBayesianConfidence 10 10 50 50 < 0.85 := by
  have hs₂ : 0 ≤ s₂ := le_of_lt (lt_of_le_of_lt hs₁ hs)
  have hv10 : betaConfVar 10 10 = 1 / 484 := by
    unfold betaConfVar
    norm_num
  have hv100 : betaConfVar 100 100 = 1 / 1204 := by
    unfold betaConfVar
    norm_num
  have hv1000 : betaConfVar 1000 1000 = 1 / 8404 := by
    unfold betaConfVar
    norm_num
  have hs10 : Real.sqrt (betaConfVar 10 10) = 1 / 22 := by
    rw [hv10, show (1:ℝ) / 484 = (1 / 22) ^ 2 by norm_num,
      Real.sqrt_sq (by norm_num)]
  have hs100 : Real.sqrt (betaConfVar 100 100) < 1 / 22 := by
    rw [hv100]
    exact (Real.sqrt_lt' (by norm_num)).mpr (by norm_num)
  have hs1000 : Real.sqrt (betaConfVar 1000 1000) < 1 / 40 := by
    rw [hv1000]
    exact (Real.sqrt_lt' (by norm_num)).mpr (by norm_num)
  have hs1000lt100 : Real.sqrt (betaConfVar 1000 1000) <
      Real.sqrt (betaConfVar 100 100) := by
    rw [hv100, hv1000]
    exact Real.sqrt_lt_sqrt (by norm_num) (by norm_num)
  refine ⟨?_, ?_, ?_, ?_, ?_⟩
  · rw [conf_eq_sub (mul_nonneg hw hs₁) (mul_nonneg hl hs₁),
      conf_eq_sub (mul_nonneg hw hs₂) (mul_nonneg hl hs₂)]
    have hlt := betaConfVar_strict_anti hw hl hwl hs₁ hs
    have h2 : Real.sqrt (betaConfVar (w * s₂) (l * s₂)) <
        Real.sqrt (betaConfVar (w * s₁) (l * s₁)) :=
      Real.sqrt_lt_sqrt (betaConfVar_nonneg (mul_nonneg hw hs₂) (mul_nonneg hl hs₂)) hlt
    linarith
  · rw [conf_eq_sub (by norm_num) (by norm_num),
      conf_eq_sub (by norm_num) (by norm_num)]
    linarith [hs1000lt100]
  · rw [conf_eq_sub (by norm_num) (by norm_num),
      conf_eq_sub (by norm_num) (by norm_num)]
    rw [hs10]
    linarith [hs100]
  · rw [conf_eq_sub (by norm_num) (by norm_num)]
    linarith [hs1000]
  · rw [conf_eq_sub (by norm_num) (by norm_num)]
    rw [hs10]
    norm_num

/-- Witness for C4 along the ray of even win:loss ratio. -/
theorem C4_witness :
    calculateBayesianConfidence (1 * 100) (1 * 100) 50 50 <
      calculateBayesianConfidence (1 * 1000) (1 * 1000) 50 50 := by
  have h := C4_bayesianConfidence_monotone 1 1 100 1000 (by norm_num) (by norm_num)
    (by norm_num) (by norm_num) (by norm_num)
  exact h.1

/-! ## Changepoint detection (C7, C9) -/

/-- C7: the changepoint test reports no change-point and leaves the half-life
unchanged when the recent window holds fewer than the configured minimum of
games or when the standard error is 0; and when the z statistic exceeds the
configured threshold it reports a change-point with
`effectiveHalfLife = max(minHalfLife, halfLife / z)`, which never falls below
the configured floor. -/
theorem C7_detectChangepoint_spec (games : List Game) (hl : ℝ)
    (cfg : ChangepointConfig) (now : ℝ) :
    ((recentWindowOf games cfg now).length < cfg.minRecentGames ∨
        seOf games hl cfg now = 0 →
      (detectChangepoint games hl cfg now).isChangepoint = false ∧
        (detectChangepoint games hl cfg now).effectiveHalfLife = hl) ∧
    (cfg.enabled = true → games ≠ [] →
      cfg.minRecentGames ≤ (recentWindowOf games cfg now).length →
      seOf games hl cfg now ≠ 0 →
      cfg.threshold < zShiftOf games hl cfg now →
      detectChangepoint games hl cfg now =
        ⟨true, max cfg.minHalfLife (hl / zShiftOf games hl cfg now),
          zShiftOf games hl cfg now⟩ ∧
        cfg.minHalfLife ≤ (detectChangepoint games hl cfg now).effectiveHalfLife) := by
  constructor
  · intro h
    unfold detectChangepoint
    split
    · exact ⟨rfl, rfl⟩
    · split
      · exact ⟨rfl, rfl⟩
      · split
        · exact ⟨rfl, rfl⟩
        · split
          · exact ⟨rfl, rfl⟩
          · rename_i hmin hse
            rcases h with h | h
            · exact absurd h hmin
            · exact absurd h hse
  · intro hen hne hmin hse hz
    have h1 : ¬ cfg.enabled = false := by simp [hen]
    have h2 : ¬ games.isEmpty = true := by
      simpa [List.isEmpty_iff] using hne
    have h3 : ¬ (recentWindowOf games cfg now).length < cfg.minRecentGames :=
      not_lt.mpr hmin
    unfold detectChangepoint
    rw [if_neg h1, if_neg h2, if_neg h3, if_neg hse, if_pos hz]
    exact ⟨rfl, le_max_left _ _⟩

/-- Witness for C7: 30 recent losses against 100 older wins inside the
half-life window give z = 10 > 2.5 and the half-life floored at 2 days. -/
theorem C7_witness :
    (detectChangepoint
        (List.replicate 30 (⟨false, 20 * dayMs⟩ : Game) ++
          List.replicate 100 (⟨true, 15 * dayMs⟩ : Game))
        14 changepointDetection (20 * dayMs)).isChangepoint = true ∧
      2 ≤ (detectChangepoint
        (List.replicate 30 (⟨false, 20 * dayMs⟩ : Game) ++
          List.replicate 100 (⟨true, 15 * dayMs⟩ : Game))
        14 changepointDetection (20 * dayMs)).effectiveHalfLife := by
  have hrw : recentWindowOf
      (List.replicate 30 (⟨false, 20 * dayMs⟩ : Game) ++
        List.replicate 100 (⟨true, 15 * dayMs⟩ : Game))
      changepointDetection (20 * dayMs) =
      List.replicate 30 (⟨false, 20 * dayMs⟩ : Game) := by
    simp only [recentWindowOf, List.filter_append, List.filter_replicate]
    norm_num [changepointDetection, dayMs]
  have hhw : histWindowOf
      (List.replicate 30 (⟨false, 20 * dayMs⟩ : Game) ++
        List.replicate 100 (⟨true, 15 * dayMs⟩ : Game))
      14 (20 * dayMs) =
      List.replicate 30 (⟨false, 20 * dayMs⟩ : Game) ++
        List.replicate 100 (⟨true, 15 * dayMs⟩ : Game) := by
    simp only [histWindowOf, List.filter_append, List.filter_replicate]
    norm_num [dayMs]
  have hpr : pRecentOf
      (List.replicate 30 (⟨false, 20 * dayMs⟩ : Game) ++
        List.replicate 100 (⟨true, 15 * dayMs⟩ : Game))
      changepointDetection (20 * dayMs) = 0 := by
    unfold pRecentOf
    rw [hrw]
    unfold winFraction winCount
    simp [List.filter_replicate]
  have hph : pHistOf
      (List.replicate 30 (⟨false, 20 * dayMs⟩ : Game) ++
        List.replicate 100 (⟨true, 15 * dayMs⟩ : Game))
      14 (20 * dayMs) = 10 / 13 := by
    unfold pHistOf
    rw [hhw]
    rw [if_pos (by simp)]
    unfold winFraction winCount
    rw [List.filter_append, List.filter_replicate, List.filter_replicate]
    norm_num
  have hse : seOf
      (List.replicate 30 (⟨false, 20 * dayMs⟩ : Game) ++
        List.replicate 100 (⟨true, 15 * dayMs⟩ : Game))
      14 changepointDetection (20 * dayMs) = 1 / 13 := by
    unfold seOf
    rw [hph, hrw]
    rw [show (10 / 13 : ℝ) * (1 - 10 / 13) /
        (List.replicate 30 (⟨false, 20 * dayMs⟩ : Game)).length = (1 / 13) ^ 2 by
      simp
      norm_num]
    exact Real.sqrt_sq (by norm_num)
  have hz : zShiftOf
      (List.replicate 30 (⟨false, 20 * dayMs⟩ : Game) ++
        List.replicate 100 (⟨true, 15 * dayMs⟩ : Game))
      14 changepointDetection (20 * dayMs) = 10 := by
    unfold zShiftOf
    rw [hpr, hph, hse]
    rw [show (0 : ℝ) - 10 / 13 = -(10 / 13) by ring, abs_neg,
      abs_of_nonneg (by norm_num : (0:ℝ) ≤ 10 / 13)]
    norm_num
  have h := (C7_detectChangepoint_spec
    (List.replicate 30 (⟨false, 20 * dayMs⟩ : Game) ++
      List.replicate 100 (⟨true, 15 * dayMs⟩ : Game))
    14 changepointDetection (20 * dayMs)).2
    rfl (by simp) (by rw [hrw]; simp [changepointDetection])
    (by rw [hse]; norm_num) (by rw [hz]; norm_num [changepointDetection])
  rw [h.1]
  refine ⟨rfl, ?_⟩
  rw [hz]
  show (2:ℝ) ≤ max changepointDetection.minHalfLife (14 / 10)
  norm_num [changepointDetection]

/-- C9 counterexample: with the default configuration (3-day recent window,
14-day half-life), a game played today belongs to BOTH windows: the two
windows are not a partition, so "every outcome belongs to exactly one of the
two windows" fails. -/
theorem C9_counterexample :
    (⟨true, 19 * dayMs⟩ : Game) ∈
        recentWindowOf [⟨true, 19 * dayMs⟩] changepointDetection (20 * dayMs) ∧
      (⟨true, 19 * dayMs⟩ : Game) ∈
        histWindowOf [⟨true, 19 * dayMs⟩] 14 (20 * dayMs) ∧
      ¬ (((⟨true, 19 * dayMs⟩ : Game) ∈
            recentWindowOf [⟨true, 19 * dayMs⟩] changepointDetection (20 * dayMs) ∧
          (⟨true, 19 * dayMs⟩ : Game) ∉
            histWindowOf [⟨true, 19 * dayMs⟩] 14 (20 * dayMs)) ∨
        ((⟨true, 19 * dayMs⟩ : Game) ∉
            recentWindowOf [⟨true, 19 * dayMs⟩] changepointDetection (20 * dayMs) ∧
          (⟨true, 19 * dayMs⟩ : Game) ∈
            histWindowOf [⟨true, 19 * dayMs⟩] 14 (20 * dayMs))) := by
  have h1 : (⟨true, 19 * dayMs⟩ : Game) ∈
      recentWindowOf [⟨true, 19 * dayMs⟩] changepointDetection (20 * dayMs) := by
    unfold recentWindowOf
    rw [List.mem_filter]
    refine ⟨by simp, ?_⟩
    rw [decide_eq_true_eq]
    norm_num [changepointDetection, dayMs]
  have h2 : (⟨true, 19 * dayMs⟩ : Game) ∈
      histWindowOf [⟨true, 19 * dayMs⟩] 14 (20 * dayMs) := by
    unfold histWindowOf
    rw [List.mem_filter]
    refine ⟨by simp, ?_⟩
    rw [decide_eq_true_eq]
    norm_num [dayMs]
  refine ⟨h1, h2, ?_⟩
  rintro (⟨_, hno⟩ | ⟨hno, _⟩) <;> exact hno (by assumption)

/-- C9 (amended): the two windows of the change-point test overlap rather
than partition the outcomes: whenever the recent window length (in days) is
at most the half-life, every outcome of the recent window also lies in the
historical window; membership in each window is determined by its own
cutoff alone; and `pRecent`/`pHist` are the win fractions of the respective
(overlapping) windows, `pHist` defaulting to 0.5 on an empty history. -/
theorem C9_windows_amended (games : List Game) (now hl : ℝ)
    (cfg : ChangepointConfig) (hcfg : cfg.recentWindowDays ≤ hl) :
    (∀ g ∈ recentWindowOf games cfg now, g ∈ histWindowOf games hl now) ∧
    (∀ g ∈ games,
      (g ∈ recentWindowOf games cfg now ↔
        now - cfg.recentWindowDays * dayMs ≤ g.timestamp) ∧
      (g ∈ histWindowOf games hl now ↔ now - hl * dayMs ≤ g.timestamp)) ∧
    pRecentOf games cfg now = winFraction (recentWindowOf games cfg now) ∧
    (0 < (histWindowOf games hl now).length →
      pHistOf games hl now = winFraction (histWindowOf games hl now)) := by
  have hday : (0:ℝ) < dayMs := by norm_num [dayMs]
  refine ⟨?_, ?_, rfl, ?_⟩
  · intro g hg
    unfold recentWindowOf at hg
    rw [List.mem_filter, decide_eq_true_eq] at hg
    unfold histWindowOf
    rw [List.mem_filter, decide_eq_true_eq]
    refine ⟨hg.1, ?_⟩
    have : hl * dayMs ≥ cfg.recentWindowDays * dayMs :=
      mul_le_mul_of_nonneg_right hcfg hday.le
    linarith [hg.2]
  · intro g hg
    constructor
    · unfold recentWindowOf
      rw [List.mem_filter, decide_eq_true_eq]
      exact ⟨fun h => h.2, fun h => ⟨hg, h⟩⟩
    · unfold histWindowOf
      rw [List.mem_filter, decide_eq_true_eq]
      exact ⟨fun h => h.2, fun h => ⟨hg, h⟩⟩
  · intro h
    unfold pHistOf
    rw [if_pos h]

/-- Witness for C9 (amended) at a concrete game and the default windows. -/
theorem C9_witness :
    (⟨false, 18 * dayMs⟩ : Game) ∈
      histWindowOf [⟨false, 18 * dayMs⟩] 14 (20 * dayMs) := by
  have h := C9_windows_amended [⟨false, 18 * dayMs⟩] (20 * dayMs) 14
    changepointDetection (by norm_num [changepointDetection])
  apply h.1
  unfold recentWindowOf
  rw [List.mem_filter, decide_eq_true_eq]
  refine ⟨by simp, ?_⟩
  norm_num [changepointDetection, dayMs]

/-! ## Tier assignment (C3) -/

/-- The number of entities carrying a given tier. -/
def countTier (t : Tier) (l : List TieredBrawler) : ℕ :=
  l.countP (fun b => decide (b.tier = t))

lemma attachTiers_length (n : ℕ) : ∀ (i : ℕ) (l : List ScoredBrawler),
    (attachTiers n i l).length = l.length
  | _, [] => rfl
  | i, _ :: rest => by
    simp only [attachTiers, List.length_cons]
    rw [attachTiers_length n (i + 1) rest]

lemma attachTiers_map_key (n : ℕ) : ∀ (i : ℕ) (l : List ScoredBrawler),
    (attachTiers n i l).map (fun t => t.cps.getD 0) = l.map cpsKey
  | _, [] => rfl
  | i, b :: rest => by
    simp only [attachTiers, List.map_cons]
    rw [attachTiers_map_key n (i + 1) rest]
    rfl

lemma countTier_sum (l : List TieredBrawler) :
    countTier Tier.S l + countTier Tier.A l + countTier Tier.B l +
      countTier Tier.C l + countTier Tier.F l = l.length := by
  induction l with
  | nil => rfl
  | cons b rest ih =>
    rcases hb : b.tier <;>
      simp [countTier, List.countP_cons, hb] at ih ⊢ <;> omega

lemma sTierCount_pos (n : ℕ) : 0 < sTierCount n :=
  lt_of_lt_of_le one_pos (le_max_left _ _)

lemma tierFor_zero (n : ℕ) : tierFor n 0 = Tier.S := by
  unfold tierFor
  rw [if_pos (sTierCount_pos n)]

lemma sortByCpsDesc_perm (l : List ScoredBrawler) :
    List.Perm (sortByCpsDesc l) l :=
  List.perm_insertionSort cpsDescOrder l

lemma sortByCpsDesc_sorted (l : List ScoredBrawler) :
    (sortByCpsDesc l).Pairwise cpsDescOrder :=
  List.sorted_insertionSort cpsDescOrder l

/-- C3 (amended): `assignTiers` on N entities returns N entities, each with
exactly one tier so that the five tier counts sum to N; the S-tier count is
at least the configured minimum of 1 whenever the pool is nonempty; the
output is ordered by NON-INCREASING (weakly descending) cps — strict descent
fails on ties; and a single entity always receives tier S. -/
theorem C3_assignTiers_partition (bs : List ScoredBrawler) (e : ScoredBrawler)
    (hne : bs ≠ []) :
    (assignTiers bs).length = bs.length ∧
    countTier Tier.S (assignTiers bs) + countTier Tier.A (assignTiers bs) +
      countTier Tier.B (assignTiers bs) + countTier Tier.C (assignTiers bs) +
      countTier Tier.F (assignTiers bs) = bs.length ∧
    1 ≤ countTier Tier.S (assignTiers bs) ∧
    ((assignTiers bs).map (fun t => t.cps.getD 0)).Pairwise (fun x y : ℝ => y ≤ x) ∧
    assignTiers [e] = [⟨e.name, e.cps, Tier.S⟩] := by
  have hlen : (sortByCpsDesc bs).length = bs.length :=
    (sortByCpsDesc_perm bs).length_eq
  have hlen2 : (assignTiers bs).length = bs.length := by
    unfold assignTiers
    rw [attachTiers_length, hlen]
  refine ⟨hlen2, ?_, ?_, ?_, ?_⟩
  · rw [countTier_sum, hlen2]
  · have hsne : sortByCpsDesc bs ≠ [] := by
      intro h
      exact hne (List.Perm.eq_nil (h ▸ (sortByCpsDesc_perm bs).symm))
    obtain ⟨b, rest, hbr⟩ := List.exists_cons_of_ne_nil hsne
    unfold assignTiers
    rw [hbr]
    simp only [attachTiers]
    rw [tierFor_zero]
    unfold countTier
    rw [List.countP_cons]
    simp
  · unfold assignTiers
    rw [attachTiers_map_key]
    rw [List.pairwise_map]
    exact sortByCpsDesc_sorted bs
  · have hs : sortByCpsDesc [e] = [e] := by
      unfold sortByCpsDesc
      simp
    unfold assignTiers
    rw [hs]
    simp only [attachTiers, List.length_cons, List.length_nil]
    rw [tierFor_zero]

/-- Witness for C3 at a concrete two-element pool. -/
theorem C3_witness :
    (assignTiers [⟨"belle", some 0.8⟩, ⟨"shelly", some 0.4⟩]).length = 2 ∧
      1 ≤ countTier Tier.S (assignTiers [⟨"belle", some 0.8⟩, ⟨"shelly", some 0.4⟩]) ∧
      assignTiers [⟨"belle", some 0.8⟩] = [⟨"belle", some 0.8, Tier.S⟩] := by
  have h := C3_assignTiers_partition
    [⟨"belle", some 0.8⟩, ⟨"shelly", some 0.4⟩] ⟨"belle", some 0.8⟩ (by simp)
  exact ⟨h.1, h.2.2.1, h.2.2.2.2⟩

/-- C3 counterexample: on a pool with tied CPS values the output of
`assignTiers` is NOT strictly descending in cps (two adjacent equal values),
refuting "ordered by strictly descending cps" as stated. -/
theorem C3_counterexample :
    ¬ (((assignTiers [⟨"a", some 0.5⟩, ⟨"b", some 0.5⟩]).map
      (fun t => t.cps.getD 0)).Pairwise (fun x y : ℝ => y < x)) := by
  have hr : cpsDescOrder (⟨"a", some 0.5⟩ : ScoredBrawler) ⟨"b", some 0.5⟩ := by
    unfold cpsDescOrder cpsKey
    norm_num
  have hsort : sortByCpsDesc [⟨"a", some 0.5⟩, ⟨"b", some 0.5⟩] =
      [⟨"a", some 0.5⟩, ⟨"b", some 0.5⟩] := by
    unfold sortByCpsDesc
    simp only [List.insertionSort, List.orderedInsert]
    rw [if_pos hr]
  intro h
  unfold assignTiers at h
  rw [hsort] at h
  rw [attachTiers_map_key] at h
  simp only [List.map_cons, List.map_nil, List.pairwise_cons] at h
  have := h.1 (cpsKey ⟨"b", some 0.5⟩) (by simp)
  unfold cpsKey at this
  simp at this

/-! ## Zero win-rate falsy coercion (C10) -/

lemma resolveWinRate_zero : resolveWinRate none (some 0) = 50 := by
  simp [resolveWinRate, jsOr]

lemma resolveWinRate_zero_eq_missing :
    resolveWinRate none (some 0) = resolveWinRate none none := by
  simp [resolveWinRate, jsOr]

lemma brawlerWinRateMap_cons_congr {e1 e2 : Brawler} (hname : e1.name = e2.name)
    (hres : resolveWinRate e1.adjustedWinRate e1.winRate =
      resolveWinRate e2.adjustedWinRate e2.winRate)
    (tb : List Brawler) (n : String) :
    brawlerWinRateMap (e1 :: tb) n = brawlerWinRateMap (e2 :: tb) n := by
  unfold brawlerWinRateMap
  rw [List.reverse_cons, List.reverse_cons, List.find?_append, List.find?_append]
  cases hf : tb.reverse.find? (fun b => b.name == n) with
  | some b => simp
  | none =>
    simp only [Option.none_or]
    rw [List.find?_singleton, List.find?_singleton]
    by_cases hn : e1.name == n
    · have hn2 : (e2.name == n) = true := by
        rw [← hname]
        exact hn
      rw [if_pos hn, if_pos hn2]
      simp [hres]
    · have hn2 : ¬ (e2.name == n) = true := by
        rw [← hname]
        exact hn
      rw [if_neg hn, if_neg hn2]

lemma calculateCompositionScore_team_congr {t1 t2 : Team}
    (hb : t1.brawlers = t2.brawlers) (hc : t1.count = t2.count)
    (hres : resolveWinRate t1.adjustedWinRate t1.winRate =
      resolveWinRate t2.adjustedWinRate t2.winRate)
    (nm : String) (teams : List Team) (tb : List Brawler) :
    calculateCompositionScore nm (t1 :: teams) tb =
      calculateCompositionScore nm (t2 :: teams) tb := by
  have hw : teamWeight t1 = teamWeight t2 := by
    unfold teamWeight
    rw [hc]
  have hlft : teamCompLift tb t1 = teamCompLift tb t2 := by
    unfold teamCompLift
    rw [hres, hb]
  unfold calculateCompositionScore relevantTeams totalLift totalTeamWeight
  rw [List.filter_cons, List.filter_cons]
  have hcond : decide (nm ∈ t1.brawlers ∧ 50 < jsOr t1.count 0) =
      decide (nm ∈ t2.brawlers ∧ 50 < jsOr t2.count 0) := by
    rw [hb, hc]
  rw [hcond]
  by_cases hx : decide (nm ∈ t2.brawlers ∧ 50 < jsOr t2.count 0) = true
  · rw [if_pos hx, if_pos hx]
    simp only [List.map_cons, List.sum_cons, List.isEmpty_cons]
    rw [hw, hlft]
  · rw [if_neg hx, if_neg hx]

lemma calculateCompositionScore_top_congr {e1 e2 : Brawler}
    (hname : e1.name = e2.name)
    (hres : resolveWinRate e1.adjustedWinRate e1.winRate =
      resolveWinRate e2.adjustedWinRate e2.winRate)
    (nm : String) (teams : List Team) (tb : List Brawler) :
    calculateCompositionScore nm teams (e1 :: tb) =
      calculateCompositionScore nm teams (e2 :: tb) := by
  have hmw : memberWinRate (e1 :: tb) = memberWinRate (e2 :: tb) := by
    funext n
    unfold memberWinRate
    rw [brawlerWinRateMap_cons_congr hname hres]
  unfold calculateCompositionScore totalLift teamCompLift
  rw [hmw]

/-- C10: a brawler record with `adjustedWinRate` absent and `winRate` exactly
0 is scored by `computeCPS` identically to the same record with the
`winRate` field missing (both resolve to the default 50, which also feeds the
Bayesian-confidence wins/losses); the same falsy coercion applies inside
`calculateCompositionScore` to a team whose `winRate` is 0 and to a member
list entry whose win rate is 0 (whose looked-up value becomes 50). -/
theorem C10_zero_winRate_coerced_to_50 (name : String) (useRate count : Option ℝ)
    (rg : List Game) (mu : Option (List Matchup)) (hpr hwr : Option ℝ)
    (allB : List Brawler) (teams : List Team) (mt : MapType) (stats : Option Stats)
    (tier : Option SkillTier) (feats : Option MapFeatures) (now : ℝ)
    (bs : List String) (cnt : Option ℝ) (nm : String) (tb : List Brawler) :
    resolveWinRate none (some 0) = 50 ∧
    computeCPS ⟨name, some 0, none, useRate, count, rg, mu, hpr, hwr⟩
        allB teams mt stats tier feats now =
      computeCPS ⟨name, none, none, useRate, count, rg, mu, hpr, hwr⟩
        allB teams mt stats tier feats now ∧
    winsOf ⟨name, some 0, none, useRate, count, rg, mu, hpr, hwr⟩ =
      50 / 100 * jsOr count 0 ∧
    calculateCompositionScore nm (⟨bs, some 0, none, cnt⟩ :: teams) tb =
      calculateCompositionScore nm (⟨bs, none, none, cnt⟩ :: teams) tb ∧
    calculateCompositionScore nm teams
        (⟨name, some 0, none, useRate, count, rg, mu, hpr, hwr⟩ :: tb) =
      calculateCompositionScore nm teams
        (⟨name, none, none, useRate, count, rg, mu, hpr, hwr⟩ :: tb) := by
  have hres := resolveWinRate_zero_eq_missing
  refine ⟨resolveWinRate_zero, ?_, ?_, ?_, ?_⟩
  · simp only [computeCPS, baseCPSOf, confidenceOf, stalenessOf, lossesOf, winsOf,
      timeWeightedWinRateOf, useRateScoreOf, effectiveHalfLifeOf, hres]
  · unfold winsOf
    dsimp only
    rw [resolveWinRate_zero]
  · exact @calculateCompositionScore_team_congr ⟨bs, some 0, none, cnt⟩
      ⟨bs, none, none, cnt⟩ rfl rfl hres nm teams tb
  · exact @calculateCompositionScore_top_congr
      ⟨name, some 0, none, useRate, count, rg, mu, hpr, hwr⟩
      ⟨name, none, none, useRate, count, rg, mu, hpr, hwr⟩ rfl hres nm teams tb

/-- Witness for C10 (the theorem is universally quantified with no
propositional hypotheses; instantiated at a concrete record anyway). -/
theorem C10_witness :
    computeCPS ⟨"edgar", some 0, none, some 5, some 40, [], none, none, none⟩
        [] [] MapType.unknown none none none 0 =
      computeCPS ⟨"edgar", none, none, some 5, some 40, [], none, none, none⟩
        [] [] MapType.unknown none none none 0 :=
  (C10_zero_winRate_coerced_to_50 "edgar" (some 5) (some 40) [] none none none
    [] [] MapType.unknown none none none 0 [] none "edgar" []).2.1

/-! ## Confidence-interval propagation (C8) -/

/-- A probe brawler used to evaluate `computeCPSWithCI` at varying sample
counts with all other inputs held identical: 50% win rate, 10% use rate, no
game history, no matchups, no historical baseline. -/
noncomputable def ciProbe (count : ℝ) : Brawler :=
  ⟨"probe", some 50, none, some 10, some count, [], none, none, none⟩

/-- Degenerate pool statistics (means at the probe values, zero spread). -/
def probeStats : Stats := ⟨50, 0, 10, 0⟩

lemma toFixed3_eq (x : ℝ) (k : ℤ) (h1 : (k : ℝ) ≤ x * 1000 + 1 / 2)
    (h2 : x * 1000 + 1 / 2 < (k : ℝ) + 1) : toFixed3 x = (k : ℝ) / 1000 := by
  unfold toFixed3
  have : ⌊x * 1000 + 1 / 2⌋ = k := by
    rw [Int.floor_eq_iff]
    exact ⟨h1, by push_cast; linarith⟩
  rw [this]

lemma unknownWeights :
    getEffectiveWeights MapType.unknown none none = ⟨0.5, 0.2, 0.15, 0.15⟩ := by
  have hraw : rawWeights MapType.unknown none none = ⟨0.5, 0.2, 0.15, 0.15⟩ := by
    unfold rawWeights getMapTypeWeights mapWeights skillTierModifiers
      getMapFeatureWeightModifiers
    simp
  have hcl : clampedWeights MapType.unknown none none = ⟨0.5, 0.2, 0.15, 0.15⟩ := by
    unfold clampedWeights
    rw [hraw]
    unfold clamp01
    simp only
    norm_num
  have htot : clampedTotal MapType.unknown none none = 1 := by
    unfold clampedTotal
    rw [hcl]
    norm_num
  unfold getEffectiveWeights
  rw [hcl, htot]
  norm_num

lemma probe_resolve (c : ℝ) :
    resolveWinRate (ciProbe c).adjustedWinRate (ciProbe c).winRate = 50 := by
  unfold ciProbe resolveWinRate jsOr
  norm_num

lemma probe_count (c : ℝ) (hc : c ≠ 0) : jsOr (ciProbe c).count 0 = c := by
  unfold ciProbe jsOr
  simp [hc]

lemma probe_staleness (c : ℝ) : stalenessOf (ciProbe c) = 1 := rfl

lemma probe_twr (c : ℝ) (now : ℝ) : timeWeightedWinRateOf (ciProbe c) now = 50 := by
  unfold timeWeightedWinRateOf calculateTimeWeightedWinRate
  simp only [ciProbe, List.isEmpty_nil, if_pos, Option.getD_none]
  exact probe_resolve c

lemma probe_useScore (c : ℝ) :
    useRateScoreOf (ciProbe c) [] (some probeStats) = 1 / 2 := by
  unfold useRateScoreOf
  rw [probe_resolve]
  unfold probeStats calculateUseRateScore zOrZero trapPenaltyOf
  norm_num [Real.exp_zero]

lemma probe_composition (c : ℝ) :
    calculateCompositionScore (ciProbe c).name [] [] = 0.5 := by
  unfold calculateCompositionScore relevantTeams
  simp

lemma probe_counter (c : ℝ) :
    calculateCounterMetaScore (ciProbe c).name (ciProbe c).matchups [] = 0.5 := rfl

lemma probe_base (c : ℝ) :
    baseCPSOf (ciProbe c) [] [] MapType.unknown (some probeStats) none none 0 =
      1 / 2 := by
  unfold baseCPSOf
  rw [unknownWeights, probe_twr, probe_useScore, probe_composition, probe_counter]
  norm_num

lemma probe_wins (c : ℝ) (hc : c ≠ 0) : winsOf (ciProbe c) = 50 / 100 * c := by
  unfold winsOf
  rw [probe_resolve, probe_count c hc]

lemma probe_losses (c : ℝ) (hc : c ≠ 0) : lossesOf (ciProbe c) = c - 50 / 100 * c := by
  unfold lossesOf
  rw [probe_count c hc, probe_wins c hc]

lemma probe_conf_formula (c : ℝ) (hc : 0 < c) :
    confidenceOf (ciProbe c) = 1 - 4 * Real.sqrt (1 / (4 * (c + 101))) := by
  unfold confidenceOf
  rw [probe_wins c (ne_of_gt hc), probe_losses c (ne_of_gt hc)]
  rw [conf_eq_sub (by nlinarith) (by nlinarith)]
  have hV : betaConfVar (50 / 100 * c) (c - 50 / 100 * c) = 1 / (4 * (c + 101)) := by
    unfold betaConfVar
    rw [div_eq_div_iff (by nlinarith [sq_nonneg (c + 100)]) (by nlinarith)]
    ring
  rw [hV]

lemma probe_cps_formula (c : ℝ) (hc : 0 < c) :
    computeCPS (ciProbe c) [] [] MapType.unknown (some probeStats) none none 0 =
      toFixed3 (1 / 2 * confidenceOf (ciProbe c)) := by
  unfold computeCPS
  rw [probe_base, probe_staleness]
  ring_nf

lemma probe_var_formula (c : ℝ) (hc : 0 < c) :
    varCPSOf (ciProbe c) [] [] MapType.unknown (some probeStats) none none 0 =
      confidenceOf (ciProbe c) ^ 2 * (0.25 * (0.25 / c) + 0.00125) +
        ciBaseCPSOf (ciProbe c) [] [] MapType.unknown (some probeStats) none none 0 ^ 2 *
          (1 / (4 * (c + 101))) := by
  unfold varCPSOf
  rw [unknownWeights, probe_resolve, probe_count c (ne_of_gt hc),
    probe_wins c (ne_of_gt hc), probe_losses c (ne_of_gt hc)]
  have hbin : binomialVariance 50 c = 0.25 / c := by
    unfold binomialVariance
    rw [if_neg (not_le.mpr hc)]
    norm_num
  have hbv : betaVariance (50 / 100 * c + 50) (c - 50 / 100 * c + 50) =
      1 / (4 * (c + 101)) := by
    unfold betaVariance
    rw [if_neg (by push_neg; nlinarith)]
    rw [div_eq_div_iff (by nlinarith [sq_nonneg (c + 100)]) (by nlinarith)]
    ring
  rw [hbin, hbv, if_pos hc]
  norm_num
  left
  linarith

lemma probe_conf_pos (c : ℝ) (hc : 0 < c) : 0 < confidenceOf (ciProbe c) := by
  unfold confidenceOf
  rw [probe_wins c (ne_of_gt hc), probe_losses c (ne_of_gt hc),
    conf_eq_sub (by nlinarith) (by nlinarith)]
  have := conf_width_lt_one (w := 50 / 100 * c) (l := c - 50 / 100 * c)
    (by nlinarith) (by nlinarith)
  linarith

lemma probe_ciBase (c : ℝ) (hc : 0 < c) :
    ciBaseCPSOf (ciProbe c) [] [] MapType.unknown (some probeStats) none none 0 =
      computeCPS (ciProbe c) [] [] MapType.unknown (some probeStats) none none 0 /
        confidenceOf (ciProbe c) := by
  unfold ciBaseCPSOf
  rw [if_pos (probe_conf_pos c hc)]

lemma probe_ci_9899 :
    (computeCPSWithCI (ciProbe 9899) [] [] MapType.unknown (some probeStats)
      none none 0).ciLower = 422 / 1000 ∧
    (computeCPSWithCI (ciProbe 9899) [] [] MapType.unknown (some probeStats)
      none none 0).ciUpper = 558 / 1000 := by
  have hc : (0:ℝ) < 9899 := by norm_num
  have hconf : confidenceOf (ciProbe 9899) = 49 / 50 := by
    rw [probe_conf_formula 9899 hc]
    rw [show (1:ℝ) / (4 * (9899 + 101)) = (1 / 200) ^ 2 by norm_num]
    rw [Real.sqrt_sq (by norm_num)]
    norm_num
  have hcps : computeCPS (ciProbe 9899) [] [] MapType.unknown (some probeStats)
      none none 0 = 49 / 100 := by
    rw [probe_cps_formula 9899 hc, hconf]
    rw [show (1:ℝ) / 2 * (49 / 50) = 49 / 100 by norm_num]
    exact (toFixed3_eq (49 / 100) 490 (by norm_num) (by norm_num)).trans (by norm_num)
  have hbase : ciBaseCPSOf (ciProbe 9899) [] [] MapType.unknown (some probeStats)
      none none 0 = 1 / 2 := by
    rw [probe_ciBase 9899 hc, hcps, hconf]
    norm_num
  have hvar := probe_var_formula 9899 hc
  rw [hconf, hbase] at hvar
  have hv1 : 0.0012128 < varCPSOf (ciProbe 9899) [] [] MapType.unknown
      (some probeStats) none none 0 := by
    rw [hvar]
    norm_num
  have hv2 : varCPSOf (ciProbe 9899) [] [] MapType.unknown (some probeStats)
      none none 0 < 0.00121285 := by
    rw [hvar]
    norm_num
  have hmax : max 0 (varCPSOf (ciProbe 9899) [] [] MapType.unknown
      (some probeStats) none none 0) = varCPSOf (ciProbe 9899) [] []
      MapType.unknown (some probeStats) none none 0 :=
    max_eq_right (by linarith)
  have hs1 : (0.034825:ℝ) < Real.sqrt (max 0 (varCPSOf (ciProbe 9899) [] []
      MapType.unknown (some probeStats) none none 0)) := by
    rw [hmax]
    exact (Real.lt_sqrt (by norm_num)).mpr (by nlinarith)
  have hs2 : Real.sqrt (max 0 (varCPSOf (ciProbe 9899) [] [] MapType.unknown
      (some probeStats) none none 0)) < 0.034826 := by
    rw [hmax]
    exact (Real.sqrt_lt' (by norm_num)).mpr (by nlinarith)
  constructor
  · have hL : (computeCPSWithCI (ciProbe 9899) [] [] MapType.unknown
        (some probeStats) none none 0).ciLower =
        toFixed3 (max 0 (computeCPS (ciProbe 9899) [] [] MapType.unknown
          (some probeStats) none none 0 - 1.96 * Real.sqrt (max 0 (varCPSOf
          (ciProbe 9899) [] [] MapType.unknown (some probeStats) none none 0)))) :=
      rfl
    rw [hL, hcps, max_eq_right (by nlinarith)]
    exact (toFixed3_eq _ 422 (by nlinarith) (by nlinarith)).trans (by norm_num)
  · have hU : (computeCPSWithCI (ciProbe 9899) [] [] MapType.unknown
        (some probeStats) none none 0).ciUpper =
        toFixed3 (min 1 (computeCPS (ciProbe 9899) [] [] MapType.unknown
          (some probeStats) none none 0 + 1.96 * Real.sqrt (max 0 (varCPSOf
          (ciProbe 9899) [] [] MapType.unknown (some probeStats) none none 0)))) :=
      rfl
    rw [hU, hcps, min_eq_right (by nlinarith)]
    exact (toFixed3_eq _ 558 (by nlinarith) (by nlinarith)).trans (by norm_num)

lemma probe_ci_89899 :
    (computeCPSWithCI (ciProbe 89899) [] [] MapType.unknown (some probeStats)
      none none 0).ciLower = 428 / 1000 ∧
    (computeCPSWithCI (ciProbe 89899) [] [] MapType.unknown (some probeStats)
      none none 0).ciUpper = 566 / 1000 := by
  have hc : (0:ℝ) < 89899 := by norm_num
  have hconf : confidenceOf (ciProbe 89899) = 149 / 150 := by
    rw [probe_conf_formula 89899 hc]
    rw [show (1:ℝ) / (4 * (89899 + 101)) = (1 / 600) ^ 2 by norm_num]
    rw [Real.sqrt_sq (by norm_num)]
    norm_num
  have hcps : computeCPS (ciProbe 89899) [] [] MapType.unknown (some probeStats)
      none none 0 = 497 / 1000 := by
    rw [probe_cps_formula 89899 hc, hconf]
    rw [show (1:ℝ) / 2 * (149 / 150) = 149 / 300 by norm_num]
    exact (toFixed3_eq (149 / 300) 497 (by norm_num) (by norm_num)).trans (by norm_num)
  have hbase : ciBaseCPSOf (ciProbe 89899) [] [] MapType.unknown (some probeStats)
      none none 0 = 1491 / 2980 := by
    rw [probe_ciBase 89899 hc, hcps, hconf]
    norm_num
  have hvar := probe_var_formula 89899 hc
  rw [hconf, hbase] at hvar
  have hv1 : 0.00123475 < varCPSOf (ciProbe 89899) [] [] MapType.unknown
      (some probeStats) none none 0 := by
    rw [hvar]
    norm_num
  have hv2 : varCPSOf (ciProbe 89899) [] [] MapType.unknown (some probeStats)
      none none 0 < 0.00123478 := by
    rw [hvar]
    norm_num
  have hmax : max 0 (varCPSOf (ciProbe 89899) [] [] MapType.unknown
      (some probeStats) none none 0) = varCPSOf (ciProbe 89899) [] []
      MapType.unknown (some probeStats) none none 0 :=
    max_eq_right (by linarith)
  have hs1 : (0.035139:ℝ) < Real.sqrt (max 0 (varCPSOf (ciProbe 89899) [] []
      MapType.unknown (some probeStats) none none 0)) := by
    rw [hmax]
    exact (Real.lt_sqrt (by norm_num)).mpr (by nlinarith)
  have hs2 : Real.sqrt (max 0 (varCPSOf (ciProbe 89899) [] [] MapType.unknown
      (some probeStats) none none 0)) < 0.035140 := by
    rw [hmax]
    exact (Real.sqrt_lt' (by norm_num)).mpr (by nlinarith)
  constructor
  · have hL : (computeCPSWithCI (ciProbe 89899) [] [] MapType.unknown
        (some probeStats) none none 0).ciLower =
        toFixed3 (max 0 (computeCPS (ciProbe 89899) [] [] MapType.unknown
          (some probeStats) none none 0 - 1.96 * Real.sqrt (max 0 (varCPSOf
          (ciProbe 89899) [] [] MapType.unknown (some probeStats) none none 0)))) :=
      rfl
    rw [hL, hcps, max_eq_right (by nlinarith)]
    exact (toFixed3_eq _ 428 (by nlinarith) (by nlinarith)).trans (by norm_num)
  · have hU : (computeCPSWithCI (ciProbe 89899) [] [] MapType.unknown
        (some probeStats) none none 0).ciUpper =
        toFixed3 (min 1 (computeCPS (ciProbe 89899) [] [] MapType.unknown
          (some probeStats) none none 0 + 1.96 * Real.sqrt (max 0 (varCPSOf
          (ciProbe 89899) [] [] MapType.unknown (some probeStats) none none 0)))) :=
      rfl
    rw [hU, hcps, min_eq_right (by nlinarith)]
    exact (toFixed3_eq _ 566 (by nlinarith) (by nlinarith)).trans (by norm_num)

set_option maxHeartbeats 1000000 in
lemma probe_ci_50 :
    (computeCPSWithCI (ciProbe 50) [] [] MapType.unknown (some probeStats)
      none none 0).ciLower = 328 / 1000 ∧
    (computeCPSWithCI (ciProbe 50) [] [] MapType.unknown (some probeStats)
      none none 0).ciUpper = 510 / 1000 := by
  have hc : (0:ℝ) < 50 := by norm_num
  have hconfeq : confidenceOf (ciProbe 50) = 1 - 4 * Real.sqrt (1 / 604) := by
    rw [probe_conf_formula 50 hc]
    norm_num
  have hsq1 : (0.04068:ℝ) < Real.sqrt (1 / 604) :=
    (Real.lt_sqrt (by norm_num)).mpr (by norm_num)
  have hsq2 : Real.sqrt (1 / 604) < 0.04070 :=
    (Real.sqrt_lt' (by norm_num)).mpr (by norm_num)
  have hC1 : (0.8372:ℝ) < confidenceOf (ciProbe 50) := by
    rw [hconfeq]
    linarith
  have hC2 : confidenceOf (ciProbe 50) < 0.83728 := by
    rw [hconfeq]
    linarith
  have hCpos : (0:ℝ) < confidenceOf (ciProbe 50) := by linarith
  have hcps : computeCPS (ciProbe 50) [] [] MapType.unknown (some probeStats)
      none none 0 = 419 / 1000 := by
    rw [probe_cps_formula 50 hc]
    exact (toFixed3_eq _ 419 (by nlinarith) (by nlinarith)).trans (by norm_num)
  have hbase : ciBaseCPSOf (ciProbe 50) [] [] MapType.unknown (some probeStats)
      none none 0 = (419 / 1000) / confidenceOf (ciProbe 50) := by
    rw [probe_ciBase 50 hc, hcps]
  have hb1 : ciBaseCPSOf (ciProbe 50) [] [] MapType.unknown (some probeStats)
      none none 0 < 0.5006 := by
    rw [hbase, div_lt_iff hCpos]
    nlinarith
  have hb2 : (0.5004:ℝ) < ciBaseCPSOf (ciProbe 50) [] [] MapType.unknown
      (some probeStats) none none 0 := by
    rw [hbase, lt_div_iff hCpos]
    nlinarith
  have hCsq1 : (0.70090:ℝ) < confidenceOf (ciProbe 50) ^ 2 := by nlinarith
  have hCsq2 : confidenceOf (ciProbe 50) ^ 2 < 0.70104 := by nlinarith
  have hbsq1 : (0.25040:ℝ) < ciBaseCPSOf (ciProbe 50) [] [] MapType.unknown
      (some probeStats) none none 0 ^ 2 := by nlinarith
  have hbsq2 : ciBaseCPSOf (ciProbe 50) [] [] MapType.unknown (some probeStats)
      none none 0 ^ 2 < 0.25061 := by nlinarith
  have hvar := probe_var_formula 50 hc
  have hv1 : 0.0021668 < varCPSOf (ciProbe 50) [] [] MapType.unknown
      (some probeStats) none none 0 := by
    rw [hvar]
    nlinarith
  have hv2 : varCPSOf (ciProbe 50) [] [] MapType.unknown (some probeStats)
      none none 0 < 0.0021676 := by
    rw [hvar]
    nlinarith
  have hmax : max 0 (varCPSOf (ciProbe 50) [] [] MapType.unknown
      (some probeStats) none none 0) = varCPSOf (ciProbe 50) [] []
      MapType.unknown (some probeStats) none none 0 :=
    max_eq_right (by linarith)
  have hs1 : (0.046548:ℝ) < Real.sqrt (max 0 (varCPSOf (ciProbe 50) [] []
      MapType.unknown (some probeStats) none none 0)) := by
    rw [hmax]
    exact (Real.lt_sqrt (by norm_num)).mpr (by nlinarith)
  have hs2 : Real.sqrt (max 0 (varCPSOf (ciProbe 50) [] [] MapType.unknown
      (some probeStats) none none 0)) < 0.046562 := by
    rw [hmax]
    exact (Real.sqrt_lt' (by norm_num)).mpr (by nlinarith)
  constructor
  · have hL : (computeCPSWithCI (ciProbe 50) [] [] MapType.unknown
        (some probeStats) none none 0).ciLower =
        toFixed3 (max 0 (computeCPS (ciProbe 50) [] [] MapType.unknown
          (some probeStats) none none 0 - 1.96 * Real.sqrt (max 0 (varCPSOf
          (ciProbe 50) [] [] MapType.unknown (some probeStats) none none 0)))) :=
      rfl
    rw [hL, hcps, max_eq_right (by nlinarith)]
    exact (toFixed3_eq _ 328 (by nlinarith) (by nlinarith)).trans (by norm_num)
  · have hU : (computeCPSWithCI (ciProbe 50) [] [] MapType.unknown
        (some probeStats) none none 0).ciUpper =
        toFixed3 (min 1 (computeCPS (ciProbe 50) [] [] MapType.unknown
          (some probeStats) none none 0 + 1.96 * Real.sqrt (max 0 (varCPSOf
          (ciProbe 50) [] [] MapType.unknown (some probeStats) none none 0)))) :=
      rfl
    rw [hU, hcps, min_eq_right (by nlinarith)]
    exact (toFixed3_eq _ 510 (by nlinarith) (by nlinarith)).trans (by norm_num)

set_option maxHeartbeats 1000000 in
lemma probe_ci_10000 :
    (computeCPSWithCI (ciProbe 10000) [] [] MapType.unknown (some probeStats)
      none none 0).ciLower = 422 / 1000 ∧
    (computeCPSWithCI (ciProbe 10000) [] [] MapType.unknown (some probeStats)
      none none 0).ciUpper = 558 / 1000 := by
  have hc : (0:ℝ) < 10000 := by norm_num
  have hconfeq : confidenceOf (ciProbe 10000) = 1 - 4 * Real.sqrt (1 / 40404) := by
    rw [probe_conf_formula 10000 hc]
    norm_num
  have hsq1 : (0.0049749:ℝ) < Real.sqrt (1 / 40404) :=
    (Real.lt_sqrt (by norm_num)).mpr (by norm_num)
  have hsq2 : Real.sqrt (1 / 40404) < 0.0049751 :=
    (Real.sqrt_lt' (by norm_num)).mpr (by norm_num)
  have hC1 : (0.9800996:ℝ) < confidenceOf (ciProbe 10000) := by
    rw [hconfeq]
    linarith
  have hC2 : confidenceOf (ciProbe 10000) < 0.9801004 := by
    rw [hconfeq]
    linarith
  have hCpos : (0:ℝ) < confidenceOf (ciProbe 10000) := by linarith
  have hcps : computeCPS (ciProbe 10000) [] [] MapType.unknown (some probeStats)
      none none 0 = 490 / 1000 := by
    rw [probe_cps_formula 10000 hc]
    exact (toFixed3_eq _ 490 (by nlinarith) (by nlinarith)).trans (by norm_num)
  have hbase : ciBaseCPSOf (ciProbe 10000) [] [] MapType.unknown (some probeStats)
      none none 0 = (490 / 1000) / confidenceOf (ciProbe 10000) := by
    rw [probe_ciBase 10000 hc, hcps]
  have hb1 : ciBaseCPSOf (ciProbe 10000) [] [] MapType.unknown (some probeStats)
      none none 0 < 0.49999 := by
    rw [hbase, div_lt_iff hCpos]
    nlinarith
  have hb2 : (0.49994:ℝ) < ciBaseCPSOf (ciProbe 10000) [] [] MapType.unknown
      (some probeStats) none none 0 := by
    rw [hbase, lt_div_iff hCpos]
    nlinarith
  have hCsq1 : (0.96059522:ℝ) < confidenceOf (ciProbe 10000) ^ 2 := by nlinarith
  have hCsq2 : confidenceOf (ciProbe 10000) ^ 2 < 0.96059680 := by nlinarith
  have hbsq1 : (0.249940:ℝ) < ciBaseCPSOf (ciProbe 10000) [] [] MapType.unknown
      (some probeStats) none none 0 ^ 2 := by nlinarith
  have hbsq2 : ciBaseCPSOf (ciProbe 10000) [] [] MapType.unknown (some probeStats)
      none none 0 ^ 2 < 0.24999001 := by nlinarith
  have hvar := probe_var_formula 10000 hc
  have hv1 : 0.0012129 < varCPSOf (ciProbe 10000) [] [] MapType.unknown
      (some probeStats) none none 0 := by
    rw [hvar]
    nlinarith
  have hv2 : varCPSOf (ciProbe 10000) [] [] MapType.unknown (some probeStats)
      none none 0 < 0.0012129372 := by
    rw [hvar]
    nlinarith
  have hmax : max 0 (varCPSOf (ciProbe 10000) [] [] MapType.unknown
      (some probeStats) none none 0) = varCPSOf (ciProbe 10000) [] []
      MapType.unknown (some probeStats) none none 0 :=
    max_eq_right (by linarith)
  have hs1 : (0.034826:ℝ) < Real.sqrt (max 0 (varCPSOf (ciProbe 10000) [] []
      MapType.unknown (some probeStats) none none 0)) := by
    rw [hmax]
    exact (Real.lt_sqrt (by norm_num)).mpr (by nlinarith)
  have hs2 : Real.sqrt (max 0 (varCPSOf (ciProbe 10000) [] [] MapType.unknown
      (some probeStats) none none 0)) < 0.034828 := by
    rw [hmax]
    exact (Real.sqrt_lt' (by norm_num)).mpr (by nlinarith)
  constructor
  · have hL : (computeCPSWithCI (ciProbe 10000) [] [] MapType.unknown
        (some probeStats) none none 0).ciLower =
        toFixed3 (max 0 (computeCPS (ciProbe 10000) [] [] MapType.unknown
          (some probeStats) none none 0 - 1.96 * Real.sqrt (max 0 (varCPSOf
          (ciProbe 10000) [] [] MapType.unknown (some probeStats) none none 0)))) :=
      rfl
    rw [hL, hcps, max_eq_right (by nlinarith)]
    exact (toFixed3_eq _ 422 (by nlinarith) (by nlinarith)).trans (by norm_num)
  · have hU : (computeCPSWithCI (ciProbe 10000) [] [] MapType.unknown
        (some probeStats) none none 0).ciUpper =
        toFixed3 (min 1 (computeCPS (ciProbe 10000) [] [] MapType.unknown
          (some probeStats) none none 0 + 1.96 * Real.sqrt (max 0 (varCPSOf
          (ciProbe 10000) [] [] MapType.unknown (some probeStats) none none 0)))) :=
      rfl
    rw [hU, hcps, min_eq_right (by nlinarith)]
    exact (toFixed3_eq _ 558 (by nlinarith) (by nlinarith)).trans (by norm_num)

/-- C8 counterexample: with all other inputs held identical, raising the
sample count from 9899 to 89899 makes the confidence interval WIDER
(0.136 versus 0.138): the interval width is not strictly decreasing in the
sample count; for large counts the growing confidence multiplier on the
fixed component variances dominates the shrinking binomial and Beta terms. -/
theorem C8_counterexample :
    (9899:ℝ) < 89899 ∧
    (computeCPSWithCI (ciProbe 9899) [] [] MapType.unknown (some probeStats)
        none none 0).ciUpper -
      (computeCPSWithCI (ciProbe 9899) [] [] MapType.unknown (some probeStats)
        none none 0).ciLower <
    (computeCPSWithCI (ciProbe 89899) [] [] MapType.unknown (some probeStats)
        none none 0).ciUpper -
      (computeCPSWithCI (ciProbe 89899) [] [] MapType.unknown (some probeStats)
        none none 0).ciLower := by
  obtain ⟨h1, h2⟩ := probe_ci_9899
  obtain ⟨h3, h4⟩ := probe_ci_89899
  rw [h1, h2, h3, h4]
  norm_num

/-- C8 (amended): for every input with win rate fields in [0,100], the
returned interval brackets the CPS, `ci[0] ≤ cps ≤ ci[1]`, with both bounds
in [0,1]; and for the otherwise-identical probe inputs, count = 50 produces a
wider interval (0.182) than count = 10000 (0.136) — the width shrinks over
this range, though it is not strictly decreasing for all count pairs. -/
theorem C8_ci_containment (b : Brawler) (allB : List Brawler) (teams : List Team)
    (mt : MapType) (stats : Option Stats) (tier : Option SkillTier)
    (feats : Option MapFeatures) (now : ℝ)
    (hwr : ∀ x ∈ b.winRate, 0 ≤ x ∧ x ≤ 100)
    (hadj : ∀ x ∈ b.adjustedWinRate, 0 ≤ x ∧ x ≤ 100) :
    (0 ≤ (computeCPSWithCI b allB teams mt stats tier feats now).ciLower ∧
      (computeCPSWithCI b allB teams mt stats tier feats now).ciLower ≤
        (computeCPSWithCI b allB teams mt stats tier feats now).cps ∧
      (computeCPSWithCI b allB teams mt stats tier feats now).cps ≤
        (computeCPSWithCI b allB teams mt stats tier feats now).ciUpper ∧
      (computeCPSWithCI b allB teams mt stats tier feats now).ciUpper ≤ 1) ∧
    (computeCPSWithCI (ciProbe 10000) [] [] MapType.unknown (some probeStats)
        none none 0).ciUpper -
      (computeCPSWithCI (ciProbe 10000) [] [] MapType.unknown (some probeStats)
        none none 0).ciLower <
    (computeCPSWithCI (ciProbe 50) [] [] MapType.unknown (some probeStats)
        none none 0).ciUpper -
      (computeCPSWithCI (ciProbe 50) [] [] MapType.unknown (some probeStats)
        none none 0).ciLower := by
  constructor
  · obtain ⟨hc0, hc1⟩ := computeCPS_mem b allB teams mt stats tier feats now hadj hwr
    have hσ : 0 ≤ Real.sqrt (max 0 (varCPSOf b allB teams mt stats tier feats now)) :=
      Real.sqrt_nonneg _
    have hcps_form : computeCPS b allB teams mt stats tier feats now =
        ((⌊(baseCPSOf b allB teams mt stats tier feats now * confidenceOf b *
          stalenessOf b) * 1000 + 1 / 2⌋ : ℤ) : ℝ) / 1000 := rfl
    have hcpsv : (computeCPSWithCI b allB teams mt stats tier feats now).cps =
        computeCPS b allB teams mt stats tier feats now := rfl
    have hLv : (computeCPSWithCI b allB teams mt stats tier feats now).ciLower =
        toFixed3 (max 0 (computeCPS b allB teams mt stats tier feats now -
          1.96 * Real.sqrt (max 0 (varCPSOf b allB teams mt stats tier feats now)))) :=
      rfl
    have hUv : (computeCPSWithCI b allB teams mt stats tier feats now).ciUpper =
        toFixed3 (min 1 (computeCPS b allB teams mt stats tier feats now +
          1.96 * Real.sqrt (max 0 (varCPSOf b allB teams mt stats tier feats now)))) :=
      rfl
    refine ⟨?_, ?_, ?_, ?_⟩
    · rw [hLv]
      exact toFixed3_nonneg (le_max_left _ _)
    · rw [hLv, hcpsv]
      rw [hcps_form]
      apply toFixed3_le_of_le
      rw [← hcps_form]
      exact max_le hc0 (by linarith)
    · rw [hUv, hcpsv]
      rw [hcps_form]
      apply le_toFixed3_of_le
      rw [← hcps_form]
      exact le_min hc1 (by linarith)
    · rw [hUv]
      exact toFixed3_le_one (min_le_left _ _)
  · obtain ⟨h1, h2⟩ := probe_ci_50
    obtain ⟨h3, h4⟩ := probe_ci_10000
    rw [h1, h2, h3, h4]
    norm_num

/-- Witness for C8 at the concrete probe input with count 50. -/
theorem C8_witness :
    0 ≤ (computeCPSWithCI (ciProbe 50) [] [] MapType.unknown (some probeStats)
        none none 0).ciLower ∧
      (computeCPSWithCI (ciProbe 50) [] [] MapType.unknown (some probeStats)
        none none 0).ciLower ≤
        (computeCPSWithCI (ciProbe 50) [] [] MapType.unknown (some probeStats)
          none none 0).cps ∧
      (computeCPSWithCI (ciProbe 50) [] [] MapType.unknown (some probeStats)
        none none 0).cps ≤
        (computeCPSWithCI (ciProbe 50) [] [] MapType.unknown (some probeStats)
          none none 0).ciUpper ∧
      (computeCPSWithCI (ciProbe 50) [] [] MapType.unknown (some probeStats)
        none none 0).ciUpper ≤ 1 := by
  have h := C8_ci_containment (ciProbe 50) [] [] MapType.unknown (some probeStats)
    none none 0
    (by intro x hx
        rw [show (ciProbe 50).winRate = some 50 from rfl, Option.mem_def,
          Option.some_inj] at hx
        subst hx
        norm_num)
    (by intro x hx
        exact absurd hx (by rw [show (ciProbe 50).adjustedWinRate = none from rfl]
                            simp))
  exact h.1

end BrawlFast
